import Mathlib

/-!
# Verification of ApplyTune's resume-optimization core

A shallow embedding, in Lean 4, of the Python services under
`backend/services/`: the change ledger (`change_tracker.py`), the keyword
prioritizer (`keyword_prioritizer.py`), the three validation layers and their
combinator (`tech_ecosystem_validator.py`, `adaptive_tech_validator.py`,
`llm_context_validator.py`, `semantic_validator.py`,
`multi_layer_validator.py`), and the structural LaTeX editor
(`latex_optimizer.py`).

Modelling conventions:
* Python `str` is Lean `String` (operations are implemented on `List Char`);
* Python `float` is `ℚ` (every numeric literal in the sources is a small
  decimal, so exact rational arithmetic is faithful here);
* calls into external services (the LLM chat-completion client, the sentence
  embedding model) are oracle parameters; the `try/except` blocks around them
  are modelled by `Except`-valued oracles;
* a Python function that can raise is embedded with result type `Except`;
  reading a local variable that may be unbound at that point (Python's
  `UnboundLocalError`) is modelled by reading an `Option`-typed local;
* `print` calls are ignored except where evaluating their arguments can
  raise (an f-string reading a possibly-unbound local);
* human-readable rationale strings that are only built for logging and
  display are not reconstructed character-for-character where they embed
  Python float formatting; no property below depends on them.
-/

namespace ApplyTune

/-! ## Python string primitives -/

/-- Python whitespace (`str.strip`, regex `\s`), ASCII range. -/
def pyIsSpace (c : Char) : Bool :=
  (c == ' ') || (c == '\t') || (c == '\n') || (c == '\r') ||
    (c == '\x0b') || (c == '\x0c')

/-- Python `str.lower` on one character (ASCII, which covers the repository's
data and the inputs considered here). -/
def pyLowerChar (c : Char) : Char :=
  if 'A' ≤ c ∧ c ≤ 'Z' then Char.ofNat (c.toNat + 32) else c

/-- Python `str.upper` on one character (ASCII). -/
def pyUpperChar (c : Char) : Char :=
  if 'a' ≤ c ∧ c ≤ 'z' then Char.ofNat (c.toNat - 32) else c

/-- Python `str.lower`. -/
def pyLower (s : String) : String := (s.data.map pyLowerChar).asString

/-- Python `str.upper`. -/
def pyUpper (s : String) : String := (s.data.map pyUpperChar).asString

/-- Python substring membership `needle in hay` on character lists: `needle`
occurs contiguously in `hay` (the empty needle occurs everywhere). -/
def pyContainsChars : List Char → List Char → Bool
  | [], needle => needle.isPrefixOf ([] : List Char)
  | c :: t, needle => needle.isPrefixOf (c :: t) || pyContainsChars t needle

/-- Python substring membership `needle in hay`. -/
def pyContains (hay needle : String) : Bool := pyContainsChars hay.data needle.data

/-- Case-insensitive substring membership, `needle.lower() in hay.lower()`. -/
def pyContainsCI (hay needle : String) : Bool := pyContains (pyLower hay) (pyLower needle)

/-- Python `s[:n]` (also `s[:n]` for `n` past the end). -/
def pyTake (s : String) (n : Nat) : String := (s.data.take n).asString

/-- Python `s[a:b]` for `0 ≤ a`, clamping as Python slices do. -/
def pySlice (s : String) (a b : Nat) : String := ((s.data.take b).drop a).asString

/-- Python `str.strip()` (strip leading and trailing whitespace). -/
def pyStrip (s : String) : String :=
  (((s.data.dropWhile pyIsSpace).reverse.dropWhile pyIsSpace).reverse).asString

/-- Python `str.rstrip()`. -/
def pyRstrip (s : String) : String :=
  ((s.data.reverse.dropWhile pyIsSpace).reverse).asString

/-- One step of Python `str.replace(old, new, 1)` on character lists: replace
the first (leftmost) occurrence of `old` by `new`; if `old` does not occur the
text is returned unchanged; an empty `old` matches at position 0. -/
def replaceFirstChars (old new : List Char) : List Char → List Char
  | [] => if old.isPrefixOf ([] : List Char) then new else []
  | c :: rest =>
      if old.isPrefixOf (c :: rest) then new ++ (c :: rest).drop old.length
      else c :: replaceFirstChars old new rest

/-- Python `s.replace(old, new, 1)`. -/
def pyReplaceFirst (s old new : String) : String :=
  (replaceFirstChars old.data new.data s.data).asString

/-- Python `str.startswith`. -/
def pyStartsWith (s pre : String) : Bool := pre.data.isPrefixOf s.data

/-- Python `str.endswith`. -/
def pyEndsWith (s suf : String) : Bool := suf.data.isSuffixOf s.data

/-! ## Computable rational arithmetic

Python floats are modelled as `ℚ`.  The arithmetic below is written through
`mkRat`-based wrappers, which the kernel can evaluate on concrete inputs
(core's `Rat.add`/`Rat.mul` and `OfScientific` literals are irreducible);
each wrapper is proved equal to the corresponding Mathlib operation, so the
general theorems can reason with ordinary `ℚ` algebra while concrete runs
still evaluate by `decide`.  Decimal constants of the sources are written
`mkRat p q` (`0.3` is `mkRat 3 10`, and so on). -/

/-- Addition on `ℚ` by cross-multiplication (kernel-computable). -/
def ratAdd (a b : ℚ) : ℚ := mkRat (a.num * b.den + b.num * a.den) (a.den * b.den)

/-- Subtraction on `ℚ` by cross-multiplication (kernel-computable). -/
def ratSub (a b : ℚ) : ℚ := mkRat (a.num * b.den - b.num * a.den) (a.den * b.den)

/-- Multiplication on `ℚ` (kernel-computable). -/
def ratMul (a b : ℚ) : ℚ := mkRat (a.num * b.num) (a.den * b.den)

/-- Division of a rational by a natural number (kernel-computable). -/
def ratDivNat (a : ℚ) (n : Nat) : ℚ := mkRat a.num (a.den * n)

/-- A natural number as a rational (kernel-computable). -/
def natToRat (n : Nat) : ℚ := mkRat n 1

/-! ## Decimal rendering of the change counter

`change_tracker.py` builds change ids with the f-string
`f"change_{self._change_counter}"`; `natToDecimal` is the decimal rendering
of the counter, and is proved injective so that distinctness of ids follows
from distinctness of counters. -/

/-- Decimal digits of `n`, most significant first (what `str(n)` prints). -/
def natToDecimal (n : Nat) : List Char :=
  if _h : n < 10 then [Nat.digitChar n]
  else natToDecimal (n / 10) ++ [Nat.digitChar (n % 10)]
  decreasing_by exact Nat.div_lt_self (by omega) (by omega)

/-- Python `str(n)` for a natural number. -/
def pyStr (n : Nat) : String := (natToDecimal n).asString

/-- The id `f"change_{n}"` given to the `n`-th recorded change. -/
def changeId (n : Nat) : String := "change_" ++ pyStr n

/-! ## Change ledger (`change_tracker.py`) -/

/-- `ChangeType` enum. -/
inductive ChangeType where
  | keyword_added
  | skill_added
  | skill_removed
  | content_enhanced
  | bullet_modified
deriving DecidableEq, Repr

/-- `ChangeStatus` enum. -/
inductive ChangeStatus where
  | accepted
  | rejected
  | pending
deriving DecidableEq, Repr

/-- The `Change` dataclass: one atomic change made to the resume.
Python's `section` field is rendered `section'` (a Lean keyword), and `type`
is rendered `ctype`.  The `__post_init__` `None → []` defaulting is performed
at the only construction sites (the three `track_*` methods below), which
pass the dataclass explicit values. -/
structure Change where
  id : String
  ctype : ChangeType
  status : ChangeStatus
  original_text : String
  modified_text : String
  section' : String
  bullet_index : Option Nat
  reason : String
  keywords_added : List String
  validation_layers_passed : List String
  validation_warnings : List String
  ats_impact : Rat
deriving DecidableEq, Repr

/-- The `validation_result` dict read by `track_bullet_modification` via
`.get(key, default)`: each key may be absent. -/
structure ValidationDict where
  is_valid : Option Bool
  layers_passed : Option (List String)
  warnings : Option (List String)
deriving DecidableEq, Repr

/-- `ChangeTracker` state: the list of recorded changes (in creation order)
and the `_change_counter`. -/
structure ChangeTracker where
  changes : List Change
  change_counter : Nat
deriving DecidableEq, Repr

/-- `ChangeTracker.__init__`. -/
def ChangeTracker.init : ChangeTracker := { changes := [], change_counter := 0 }

/-- `ChangeTracker.track_bullet_modification`: returns the change id and the
updated tracker. -/
def track_bullet_modification (t : ChangeTracker) (original modified sectionLabel : String)
    (bullet_index : Nat) (keywords_added : List String) (validation_result : ValidationDict)
    (ats_impact : Rat) : String × ChangeTracker :=
  let counter := t.change_counter + 1
  let change_id := changeId counter
  let status :=
    if validation_result.is_valid.getD true then ChangeStatus.accepted else ChangeStatus.rejected
  let reason :=
    if keywords_added ≠ [] then "Added keywords: " ++ String.intercalate ", " keywords_added
    else "Content enhanced for ATS compatibility"
  let c : Change :=
    { id := change_id, ctype := .bullet_modified, status := status,
      original_text := original, modified_text := modified, section' := sectionLabel,
      bullet_index := some bullet_index, reason := reason, keywords_added := keywords_added,
      validation_layers_passed := validation_result.layers_passed.getD [],
      validation_warnings := validation_result.warnings.getD [], ats_impact := ats_impact }
  (change_id, { changes := t.changes ++ [c], change_counter := counter })

/-- `ChangeTracker.track_skill_addition`. -/
def track_skill_addition (t : ChangeTracker) (skill sectionLabel reason : String)
    (ats_impact : Rat) : String × ChangeTracker :=
  let counter := t.change_counter + 1
  let change_id := changeId counter
  let c : Change :=
    { id := change_id, ctype := .skill_added, status := .accepted,
      original_text := "", modified_text := skill, section' := sectionLabel,
      bullet_index := none, reason := reason, keywords_added := [skill],
      validation_layers_passed := [], validation_warnings := [], ats_impact := ats_impact }
  (change_id, { changes := t.changes ++ [c], change_counter := counter })

/-- `ChangeTracker.track_skill_removal`. -/
def track_skill_removal (t : ChangeTracker) (skill sectionLabel reason : String) :
    String × ChangeTracker :=
  let counter := t.change_counter + 1
  let change_id := changeId counter
  let c : Change :=
    { id := change_id, ctype := .skill_removed, status := .accepted,
      original_text := skill, modified_text := "", section' := sectionLabel,
      bullet_index := none, reason := reason, keywords_added := [],
      validation_layers_passed := [], validation_warnings := [], ats_impact := 0 }
  (change_id, { changes := t.changes ++ [c], change_counter := counter })

/-- `ChangeTracker.get_accepted_changes`. -/
def get_accepted_changes (t : ChangeTracker) : List Change :=
  t.changes.filter (fun c => decide (c.status = ChangeStatus.accepted))

/-- `ChangeTracker.get_rejected_changes`. -/
def get_rejected_changes (t : ChangeTracker) : List Change :=
  t.changes.filter (fun c => decide (c.status = ChangeStatus.rejected))

/-- `ChangeTracker.get_total_ats_impact`. -/
def get_total_ats_impact (t : ChangeTracker) : Rat :=
  ((get_accepted_changes t).map (fun c => c.ats_impact)).sum

/-- The summary dict built by `ChangeTracker.to_dict` (the per-change JSON
dicts are the `Change` records themselves; the display rounding of
`total_ats_impact` to two decimals is modelled exactly on the rationals
produced here, where it has no effect beyond `round(x, 2)`). -/
structure TrackerSummary where
  total_changes : Nat
  accepted : Nat
  rejected : Nat
  total_ats_impact : Rat
  changes : List Change
deriving DecidableEq, Repr

/-- `ChangeTracker.to_dict`. -/
def ChangeTracker.to_dict (t : ChangeTracker) : TrackerSummary :=
  { total_changes := t.changes.length,
    accepted := (get_accepted_changes t).length,
    rejected := (get_rejected_changes t).length,
    total_ats_impact := get_total_ats_impact t,
    changes := t.changes }

/-- The body of `ChangeTracker.apply_user_selections`: the `for change in
self.changes:` loop, written as the explicit traversal of the change list the
loop performs on the working document. -/
def applyChangesLoop (selected : List String) : List Change → String → String
  | [], result => result
  | c :: rest, result =>
      applyChangesLoop selected rest
        (if selected.contains c.id && (c.status == ChangeStatus.accepted)
         then pyReplaceFirst result c.original_text c.modified_text
         else result)

/-- `ChangeTracker.apply_user_selections`. -/
def apply_user_selections (t : ChangeTracker) (selected_change_ids : List String)
    (latex_content : String) : String :=
  applyChangesLoop selected_change_ids t.changes latex_content

/-- One tracker mutation: the argument tuple of one of the three `track_*`
methods. -/
inductive TrackerOp where
  | bulletMod (original modified sectionLabel : String) (bullet_index : Nat)
      (keywords_added : List String) (validation : ValidationDict) (ats_impact : Rat)
  | skillAdd (skill sectionLabel reason : String) (ats_impact : Rat)
  | skillRemove (skill sectionLabel reason : String)

/-- Apply one `track_*` call to a tracker. -/
def applyTrackerOp (t : ChangeTracker) : TrackerOp → String × ChangeTracker
  | .bulletMod o m s b k v a => track_bullet_modification t o m s b k v a
  | .skillAdd sk s r a => track_skill_addition t sk s r a
  | .skillRemove sk s r => track_skill_removal t sk s r

/-- Run a sequence of `track_*` calls. -/
def runOps (t : ChangeTracker) (ops : List TrackerOp) : ChangeTracker :=
  ops.foldl (fun t op => (applyTrackerOp t op).2) t

/-! ## Layer A, hardcoded taxonomy (`tech_ecosystem_validator.py`)

The `TechEcosystemValidator` class: the static `ecosystems` dictionary, the
reverse keyword index, the compatibility set and the validation method.
Python dicts preserve insertion order, so the tables are association lists in
source order; `set` values in the source (the compatible pairs,
`list(set(...))` deduplication) are used only through membership, and the
embedding deduplicates keeping first occurrences. -/

/-- The verdict dict shared by the Layer-1 validators: `valid`, `confidence`
and the two ecosystem lists (empty for the adaptive validator).  The
free-text `reason` / `suggestion` / `ecosystem_relationship` entries are
display strings, not modelled. -/
structure Layer1Result where
  valid : Bool
  confidence : String
  keyword_ecosystems : List String
  context_ecosystems : List String
deriving DecidableEq, Repr

/-- The `self.ecosystems` dictionary: ecosystem name ↦ categories ↦ items. -/
def ecosystems : List (String × List (String × List String)) :=
  [("machine_learning",
    [("frameworks", ["pytorch", "tensorflow", "scikit-learn", "keras", "xgboost", "lightgbm"]),
     ("infrastructure", ["tpus", "gpus", "cuda", "mlflow", "kubeflow", "sagemaker"]),
     ("languages", ["python", "r", "julia"]),
     ("tools", ["jupyter", "pandas", "numpy", "matplotlib", "model training", "inference"]),
     ("keywords", ["ml", "machine learning", "deep learning", "neural network", "model", "training"])]),
   ("devops",
    [("ci_cd", ["azure devops", "jenkins", "github actions", "gitlab ci", "circleci", "travis ci"]),
     ("containers", ["docker", "kubernetes", "containerd", "podman", "k8s", "container orchestrator"]),
     ("infrastructure", ["ansible", "terraform", "puppet", "chef", "bare metal setup"]),
     ("cloud", ["aws", "azure", "gcp", "cloud computing"]),
     ("monitoring", ["prometheus", "grafana", "datadog", "new relic", "observability"]),
     ("languages", ["bash", "python", "yaml", "golang", "shell"]),
     ("keywords", ["automation", "deployment", "ci/cd", "infrastructure", "pipeline"])]),
   ("backend",
    [("frameworks", ["spring boot", "flask", "django", "express", "fastapi", "node.js"]),
     ("databases", ["postgresql", "mysql", "mongodb", "redis", "cassandra", "dynamodb"]),
     ("languages", ["java", "python", "javascript", "golang", "c++", "typescript"]),
     ("messaging", ["kafka", "rabbitmq", "redis", "sqs"]),
     ("keywords", ["rest api", "microservices", "database design", "backend services", "api design"])]),
   ("frontend",
    [("frameworks", ["react.js", "react", "angular", "vue", "next.js", "svelte"]),
     ("languages", ["javascript", "typescript", "html5", "css3", "html", "css"]),
     ("tools", ["webpack", "babel", "npm", "yarn", "vite"]),
     ("keywords", ["ui/ux", "responsive", "web development", "frontend", "user interface"])]),
   ("data_engineering",
    [("tools", ["hadoop", "spark", "airflow", "kafka", "flink"]),
     ("databases", ["postgresql", "mongodb", "redis", "snowflake", "bigquery"]),
     ("languages", ["python", "scala", "sql", "java"]),
     ("keywords", ["data pipeline", "etl", "data warehouse", "big data"])]),
   ("systems",
    [("concepts", ["operating systems", "networking", "processes", "file systems",
        "virtualization", "concurrency programming", "multi-threaded"]),
     ("tools", ["linux", "unix", "windows"]),
     ("languages", ["c", "c++", "rust", "go", "golang"]),
     ("keywords", ["low-level", "system design", "performance"])]),
   ("testing",
    [("tools", ["jest", "pytest", "junit", "selenium", "cypress"]),
     ("types", ["unit testing", "integration testing", "qa", "test automation"]),
     ("keywords", ["testing", "quality assurance", "test cases"])]),
   ("general_cs",
    [("concepts", ["object-oriented programming", "oop", "data structures", "algorithms",
        "design patterns", "computer science", "software engineering"]),
     ("skills", ["problem-solving", "self-directed learning", "debugging", "code review"])])]

/-- The `self.compatible_pairs` set (checked in either order by
`are_ecosystems_compatible`). -/
def compatible_pairs : List (String × String) :=
  [("machine_learning", "backend"), ("machine_learning", "data_engineering"),
   ("devops", "backend"), ("devops", "frontend"), ("devops", "machine_learning"),
   ("backend", "frontend"), ("backend", "data_engineering"),
   ("systems", "backend"), ("systems", "devops"),
   ("testing", "backend"), ("testing", "frontend"),
   ("general_cs", "backend"), ("general_cs", "frontend"),
   ("general_cs", "machine_learning"), ("general_cs", "devops")]

/-- `dict` insertion as Python performs it: an existing key keeps its position
and its value list is extended; a new key is appended. -/
def upsertAppend (d : List (String × List String)) (k v : String) : List (String × List String) :=
  match d with
  | [] => [(k, [v])]
  | (k', vs) :: rest =>
      if k' = k then (k', vs ++ [v]) :: rest else (k', vs) :: upsertAppend rest k v

/-- `_build_keyword_lookup`: the reverse index keyword ↦ ecosystems built by
iterating the `ecosystems` dict in insertion order. -/
def keyword_to_ecosystems : List (String × List String) :=
  ecosystems.foldl
    (fun d eco =>
      eco.2.foldl
        (fun d cat => cat.2.foldl (fun d item => upsertAppend d (pyLower item) eco.1) d)
        d)
    []

/-- Deduplication keeping first occurrences (the embedding of `list(set(x))`,
whose Python ordering is unspecified; only membership and emptiness are used
downstream). -/
def dedupKeepFirst (l : List String) : List String :=
  l.foldl (fun acc x => if acc.contains x then acc else acc ++ [x]) []

/-- `TechEcosystemValidator.find_keyword_ecosystems`. -/
def find_keyword_ecosystems (keyword : String) : List String :=
  let keyword_lower := pyStrip (pyLower keyword)
  match keyword_to_ecosystems.lookup keyword_lower with
  | some ecos => ecos
  | none =>
      dedupKeepFirst
        (keyword_to_ecosystems.foldl
          (fun acc entry =>
            if pyContains entry.1 keyword_lower || pyContains keyword_lower entry.1
            then acc ++ entry.2 else acc)
          [])

/-- `TechEcosystemValidator.extract_context_ecosystems`. -/
def extract_context_ecosystems (context : String) : List String :=
  let context_lower := pyLower context
  dedupKeepFirst
    (keyword_to_ecosystems.foldl
      (fun acc entry => if pyContains context_lower entry.1 then acc ++ entry.2 else acc)
      [])

/-- `TechEcosystemValidator.are_ecosystems_compatible`. -/
def are_ecosystems_compatible (eco1 eco2 : String) : Bool :=
  eco1 == eco2 || compatible_pairs.contains (eco1, eco2) || compatible_pairs.contains (eco2, eco1)

/-- `TechEcosystemValidator.validate_keyword_in_context`. -/
def validate_keyword_in_context (keyword context : String) : Layer1Result :=
  let keyword_ecosystems := find_keyword_ecosystems keyword
  let context_ecosystems := extract_context_ecosystems context
  if keyword_ecosystems.isEmpty then
    { valid := true, confidence := "LOW",
      keyword_ecosystems := [], context_ecosystems := context_ecosystems }
  else if context_ecosystems.isEmpty then
    { valid := true, confidence := "MEDIUM",
      keyword_ecosystems := keyword_ecosystems, context_ecosystems := [] }
  else if keyword_ecosystems.any
      (fun keyword_eco => context_ecosystems.any
        (fun context_eco => are_ecosystems_compatible keyword_eco context_eco)) then
    { valid := true, confidence := "HIGH",
      keyword_ecosystems := keyword_ecosystems, context_ecosystems := context_ecosystems }
  else
    { valid := false, confidence := "HIGH",
      keyword_ecosystems := keyword_ecosystems, context_ecosystems := context_ecosystems }

/-! ## External-call outcomes

A call into the LLM chat-completion client inside a `try` block has three
observable outcomes in the sources: the call (or anything before
`json.loads`) raises; `json.loads` fails on the returned content; or a parsed
JSON object is obtained, whose expected keys may still be absent (read via
`.get(key, default)`). -/

/-- Outcome of one guarded LLM call returning a JSON payload of type `α`. -/
inductive LlmOutcome (α : Type) where
  | raise (msg : String)
  | parseError
  | ok (value : α)

/-! ## Layer B (`llm_context_validator.py`) -/

/-- The verdict dict of `LLMContextValidator.validate_keyword_insertion`
(`reason` and `suggestion` are display strings, not modelled). -/
structure Layer2Result where
  valid : Bool
  confidence : String
  risk_level : String
deriving DecidableEq, Repr

/-- The JSON object Layer B's LLM prompt asks for; each key may be absent. -/
structure Layer2Json where
  is_believable : Option Bool
  confidence : Option String
  risk_level : Option String
deriving DecidableEq, Repr

/-- `LLMContextValidator.validate_keyword_insertion`, with the LLM call and
JSON parsing as an oracle.  Both `except` branches return the permissive
low-confidence verdict. -/
def validate_keyword_insertion
    (oracle : String → String → Option String → LlmOutcome Layer2Json)
    (keyword bullet_point : String) (job_context : Option String) : Layer2Result :=
  match oracle keyword bullet_point job_context with
  | .ok r =>
      { valid := r.is_believable.getD false,
        confidence := r.confidence.getD "LOW",
        risk_level := r.risk_level.getD "CAUTION" }
  | .parseError => { valid := true, confidence := "LOW", risk_level := "CAUTION" }
  | .raise _ => { valid := true, confidence := "LOW", risk_level := "CAUTION" }

/-! ## Layer C (`semantic_validator.py`) -/

/-- The verdict dict of `SemanticValidator.validate_keyword_similarity`. -/
structure Layer3Result where
  valid : Bool
  confidence : String
  similarity_score : Rat
deriving DecidableEq, Repr

/-- The sentence-embedding backend: whether `_load_model` succeeded, and the
embed-and-cosine pipeline of `compute_similarity`'s `try` block. -/
structure SemanticBackend where
  model_loaded : Bool
  encode_similarity : String → String → Except String Rat

/-- The floor of a rational, computed by floor division of the numerator by
the (positive) denominator. -/
def ratFloor (q : Rat) : Int := Int.fdiv q.num q.den

/-- Python `round(x, n)` on the exact rational value (round half to even). -/
def pyRound (q : Rat) (ndigits : Nat) : Rat :=
  let scaled := ratMul q (mkRat ((10 : Int) ^ ndigits) 1)
  let fl : Int := ratFloor scaled
  let frac := ratSub scaled (mkRat fl 1)
  let r : Int :=
    if frac < mkRat 1 2 then fl
    else if mkRat 1 2 < frac then fl + 1
    else if fl % 2 = 0 then fl else fl + 1
  mkRat r (10 ^ ndigits)

/-- `SemanticValidator.compute_similarity`: neutral `0.5` when the model is
unavailable or the computation raises. -/
def compute_similarity (b : SemanticBackend) (keyword context : String) : Rat :=
  if !b.model_loaded then mkRat 1 2
  else
    match b.encode_similarity keyword context with
    | .error _ => mkRat 1 2
    | .ok v => v

/-- `SemanticValidator.validate_keyword_similarity` (default threshold 0.3). -/
def validate_keyword_similarity (b : SemanticBackend) (keyword context : String)
    (threshold : Rat := mkRat 3 10) : Layer3Result :=
  let similarity := compute_similarity b keyword context
  if mkRat 6 10 ≤ similarity then
    { valid := true, confidence := "HIGH", similarity_score := pyRound similarity 3 }
  else if threshold ≤ similarity then
    { valid := true, confidence := "MEDIUM", similarity_score := pyRound similarity 3 }
  else
    { valid := false, confidence := "HIGH", similarity_score := pyRound similarity 3 }

/-! ## Layer A, adaptive (`adaptive_tech_validator.py`) -/

/-- The JSON object the adaptive Layer-1 prompt asks for (the
`ecosystem_relationship` / `suggestion` keys are display strings). -/
structure AdaptiveJson where
  compatible : Option Bool
  confidence : Option String
deriving DecidableEq, Repr

/-- The cache key `f"{keyword.lower()}::{context[:50].lower()}"`. -/
def adaptiveCacheKey (keyword context : String) : String :=
  pyLower keyword ++ "::" ++ pyLower (pyTake context 50)

/-- `AdaptiveTechValidator.validate_keyword_in_context`: cache lookup, then
the guarded LLM call; returns the verdict and the updated cache (the two
`except` branches return the permissive verdict without caching it; the
parsed result carries empty ecosystem lists). -/
def adaptive_validate_keyword_in_context
    (oracle : String → String → LlmOutcome AdaptiveJson)
    (cache : List (String × Layer1Result)) (keyword context : String) :
    Layer1Result × List (String × Layer1Result) :=
  let key := adaptiveCacheKey keyword context
  match cache.lookup key with
  | some cached => (cached, cache)
  | none =>
      match oracle keyword context with
      | .ok r =>
          let res : Layer1Result :=
            { valid := r.compatible.getD false, confidence := r.confidence.getD "LOW",
              keyword_ecosystems := [], context_ecosystems := [] }
          (res, cache ++ [(key, res)])
      | .parseError =>
          ({ valid := true, confidence := "LOW",
             keyword_ecosystems := [], context_ecosystems := [] }, cache)
      | .raise _ =>
          ({ valid := true, confidence := "LOW",
             keyword_ecosystems := [], context_ecosystems := [] }, cache)

/-! ## The three-layer combinator (`multi_layer_validator.py`)

`MultiLayerValidator.validate_keyword`, with the three layers as the function
parameters `__init__` would have installed (Layer 2 is `None` when no LLM
client was given).  The `self.stats` counters are bookkeeping that no output
depends on and are not threaded. -/

/-- The aggregate result dict of `validate_keyword` (`reason` is a display
string; `decision_path` is the `' → '.join(...)` of the layers consulted). -/
structure MLVResult where
  valid : Bool
  overall_confidence : String
  layer1_result : Layer1Result
  layer2_result : Option Layer2Result
  layer3_result : Option Layer3Result
  decision_path : String
deriving DecidableEq, Repr

/-- The tail of `validate_keyword` from the Layer-3 call on: the strict-mode
Layer-3 rejection, then the vote count, the overall confidence grade and the
final combined result. -/
def mlvFinish (layer1_result : Layer1Result) (layer2_result : Option Layer2Result)
    (layer3fn : String → String → Layer3Result) (keyword context : String)
    (strict_mode : Bool) : MLVResult :=
  let layer3_result := layer3fn keyword context
  let path := if layer2_result.isSome then "Layer1 → Layer2 → Layer3" else "Layer1 → Layer3"
  if strict_mode ∧ layer3_result.valid = false ∧ layer3_result.confidence = "HIGH" then
    { valid := false, overall_confidence := "MEDIUM", layer1_result := layer1_result,
      layer2_result := layer2_result, layer3_result := some layer3_result,
      decision_path := path }
  else
    let valid_votes : Nat :=
      (if layer1_result.valid then 1 else 0)
        + (match layer2_result with | some r => if r.valid then 1 else 0 | none => 0)
        + (if layer3_result.valid then 1 else 0)
    let total_layers : Nat := 2 + (if layer2_result.isSome then 1 else 0)
    let final_valid : Bool :=
      if strict_mode then valid_votes == total_layers
      else decide (ratDivNat (natToRat total_layers) 2 ≤ natToRat valid_votes)
    let high_confidence_count : Nat :=
      (if layer1_result.confidence = "HIGH" then 1 else 0)
        + (match layer2_result with | some r => if r.confidence = "HIGH" then 1 else 0 | none => 0)
        + (if layer3_result.confidence = "HIGH" then 1 else 0)
    let overall_confidence :=
      if 2 ≤ high_confidence_count then "HIGH"
      else if 1 ≤ high_confidence_count then "MEDIUM"
      else "LOW"
    { valid := final_valid, overall_confidence := overall_confidence,
      layer1_result := layer1_result, layer2_result := layer2_result,
      layer3_result := some layer3_result, decision_path := path }

/-- `MultiLayerValidator.validate_keyword`. -/
def validate_keyword (layer1 : String → String → Layer1Result)
    (layer2 : Option (String → String → Option String → Layer2Result))
    (layer3fn : String → String → Layer3Result)
    (keyword context : String) (job_context : Option String) (strict_mode : Bool) : MLVResult :=
  let layer1_result := layer1 keyword context
  if layer1_result.valid = false ∧ layer1_result.confidence = "HIGH" then
    { valid := false, overall_confidence := "HIGH", layer1_result := layer1_result,
      layer2_result := none, layer3_result := none, decision_path := "Layer1" }
  else
    match layer2 with
    | some f =>
        let layer2_result := f keyword context job_context
        if layer2_result.risk_level = "FABRICATION" then
          { valid := false, overall_confidence := "HIGH", layer1_result := layer1_result,
            layer2_result := some layer2_result, layer3_result := none,
            decision_path := "Layer1 → Layer2" }
        else
          mlvFinish layer1_result (some layer2_result) layer3fn keyword context strict_mode
    | none => mlvFinish layer1_result none layer3fn keyword context strict_mode

/-! ## Keyword prioritizer (`keyword_prioritizer.py`)

`KeywordPrioritizer`: word-boundary frequency counting, section splitting by
header patterns, section weights, context bonus and the final ranking.  The
regular expressions of the source are implemented as explicit scanners with
the same backtracking order (ordered alternation, greedy optional pieces);
`re.IGNORECASE` is modelled by comparing lowered characters. -/

/-- The literal `lit` occurs at position `i` of `cs` (case-sensitive). -/
def litAt (cs : List Char) (i : Nat) (lit : List Char) : Bool :=
  lit.isPrefixOf (cs.drop i)

/-- The literal `lit` occurs at position `i` of `cs`, case-insensitively. -/
def litCIAt (cs : List Char) (i : Nat) (lit : List Char) : Bool :=
  (lit.map pyLowerChar).isPrefixOf ((cs.drop i).map pyLowerChar)

/-- The position after the maximal whitespace run starting at `i` (regex
`\s*`, greedy). -/
def skipWs (cs : List Char) (i : Nat) : Nat :=
  i + ((cs.drop i).takeWhile pyIsSpace).length

/-- Regex `\w` (ASCII scope): letters, digits, underscore. -/
def isWordChar (c : Char) : Bool := c.isAlphanum || c == '_'

/-- Whether position `j` of `cs` holds a word character. -/
def wordAt (cs : List Char) (j : Nat) : Bool :=
  match cs.get? j with
  | some c => isWordChar c
  | none => false

/-- Regex `\b`: position `i` lies between a word character and a non-word
character (the ends of the string count as non-word). -/
def boundaryAt (cs : List Char) (i : Nat) : Bool :=
  (if i = 0 then false else wordAt cs (i - 1)) != wordAt cs i

/-- One match of `\b<kw>\b` (case-insensitive) at position `i`. -/
def kwMatchAt (cs kw : List Char) (i : Nat) : Bool :=
  boundaryAt cs i && litCIAt cs i kw && boundaryAt cs (i + kw.length)

/-- The scan of `re.findall`: non-overlapping matches, left to right,
continuing after each match (one step past an empty match). -/
def countMatchesFrom (cs kw : List Char) : Nat → Nat → Nat
  | _, 0 => 0
  | pos, fuel + 1 =>
      if cs.length < pos then 0
      else if kwMatchAt cs kw pos then
        1 + countMatchesFrom cs kw (pos + max kw.length 1) fuel
      else countMatchesFrom cs kw (pos + 1) fuel

/-- `KeywordPrioritizer._count_frequency`: the number of case-insensitive
word-boundary occurrences of `keyword` in `text`. -/
def count_frequency (keyword text : String) : Nat :=
  countMatchesFrom text.data keyword.data 0 (text.data.length + 1)

/-- A piece of one section-header name: a literal, or a greedy optional
literal (`s?`, `'?`). -/
inductive NameSeg where
  | lit (s : String)
  | opt (s : String)

/-- Match a sequence of name pieces at position `i` (case-insensitive),
with the regex's backtracking order: a greedy optional piece is tried
consumed first. -/
def matchSegs (cs : List Char) : List NameSeg → Nat → Option Nat
  | [], i => some i
  | .lit s :: rest, i =>
      if litCIAt cs i s.data then matchSegs cs rest (i + s.data.length) else none
  | .opt s :: rest, i =>
      match (if litCIAt cs i s.data then matchSegs cs rest (i + s.data.length) else none) with
      | some e => some e
      | none => matchSegs cs rest i

/-- Header-name alternatives of pattern 1: `requirements?|qualifications?|must have`. -/
def headerAlts1 : List (List NameSeg) :=
  [[.lit "requirement", .opt "s"], [.lit "qualification", .opt "s"], [.lit "must have"]]

/-- Pattern 2: `responsibilities|what you\'?ll do|duties`. -/
def headerAlts2 : List (List NameSeg) :=
  [[.lit "responsibilities"], [.lit "what you", .opt "'", .lit "ll do"], [.lit "duties"]]

/-- Pattern 3: `preferred|nice to have|bonus|plus`. -/
def headerAlts3 : List (List NameSeg) :=
  [[.lit "preferred"], [.lit "nice to have"], [.lit "bonus"], [.lit "plus"]]

/-- Pattern 4: `required skills?|technical requirements?`. -/
def headerAlts4 : List (List NameSeg) :=
  [[.lit "required skill", .opt "s"], [.lit "technical requirement", .opt "s"]]

/-- Pattern 5: `what you\'?ll bring|what we\'?re looking for`. -/
def headerAlts5 : List (List NameSeg) :=
  [[.lit "what you", .opt "'", .lit "ll bring"], [.lit "what we", .opt "'", .lit "re looking for"]]

/-- The candidate end positions of the optional `(?:###?|##?)?` piece at `w`,
in the regex's backtracking order (`###`, `##`, `##`, `#`, nothing). -/
def hashCandidates (cs : List Char) (w : Nat) : List Nat :=
  (if litAt cs w "##".data then
      (if litAt cs (w + 2) "#".data then [w + 3] else []) ++ [w + 2]
   else [])
    ++ (if litAt cs w "#".data then
          (if litAt cs (w + 1) "#".data then [w + 2] else []) ++ [w + 1]
        else [])
    ++ [w]

/-- First alternative (in order) matching at `w2`. -/
def matchAltsAt (cs : List Char) (alts : List (List NameSeg)) (w2 : Nat) : Option Nat :=
  alts.findSome? (fun alt => matchSegs cs alt w2)

/-- One header pattern
`(?:^|\n)[\s]*(?:###?|##?)?\s*(<names>)` (IGNORECASE, MULTILINE) matched at
position `p`: `^` matches at 0 or after a newline, otherwise a literal `\n`
is consumed (the two cases agree when both apply, since the following `\s*`
absorbs the newline); then whitespace, optional `#` marks, whitespace, and a
name alternative.  Returns `(group-1 start, match end)`. -/
def matchHeaderAt (cs : List Char) (alts : List (List NameSeg)) (p : Nat) :
    Option (Nat × Nat) :=
  let q? : Option Nat :=
    if p = 0 || cs.get? (p - 1) == some '\n' then some p
    else if cs.get? p == some '\n' then some (p + 1)
    else none
  match q? with
  | none => none
  | some q =>
      let w := skipWs cs q
      (hashCandidates cs w).findSome? (fun h =>
        let w2 := skipWs cs h
        (matchAltsAt cs alts w2).map (fun e => (w2, e)))

/-- `re.search` from position `p`: the leftmost header match at or after `p`,
as `(match start, group-1 start, match end)`. -/
def headerSearchFrom (cs : List Char) (alts : List (List NameSeg)) :
    Nat → Nat → Option (Nat × Nat × Nat)
  | _, 0 => none
  | p, fuel + 1 =>
      if cs.length < p then none
      else
        match matchHeaderAt cs alts p with
        | some (g1s, e) => some (p, g1s, e)
        | none => headerSearchFrom cs alts (p + 1) fuel

/-- `re.finditer`: all non-overlapping header matches, left to right
(continuing after each match, one step past an empty one). -/
def headerFinditer (cs : List Char) (alts : List (List NameSeg)) :
    Nat → Nat → List (Nat × Nat × Nat)
  | _, 0 => []
  | p, fuel + 1 =>
      match headerSearchFrom cs alts p (cs.length + 1 - p) with
      | none => []
      | some (s, g1s, e) => (s, g1s, e) :: headerFinditer cs alts (max e (s + 1)) fuel

/-- All matches of one header pattern over the whole text. -/
def headerMatches (cs : List Char) (alts : List (List NameSeg)) : List (Nat × Nat × Nat) :=
  headerFinditer cs alts 0 (cs.length + 1)

/-- The five `section_patterns`, in source order. -/
def sectionPatterns : List (List (List NameSeg)) :=
  [headerAlts1, headerAlts2, headerAlts3, headerAlts4, headerAlts5]

/-- Python `dict` assignment: an existing key keeps its position and gets the
new value; a new key is appended. -/
def dictInsert (d : List (String × String)) (k v : String) : List (String × String) :=
  match d with
  | [] => [(k, v)]
  | (k', v') :: rest => if k' = k then (k, v) :: rest else (k', v') :: dictInsert rest k v

/-- `KeywordPrioritizer._identify_sections`: the five patterns are processed
sequentially (all matches of pattern 1, then of pattern 2, …) over shared
`last_end` / `current_section` state, exactly as the nested source loops do. -/
def identify_sections (jd : String) : List (String × String) :=
  let cs := jd.data
  let st :=
    sectionPatterns.foldl
      (fun st pat =>
        (headerMatches cs pat).foldl
          (fun st m =>
            let sections := st.1
            let last_end := st.2.1
            let current_section := st.2.2
            let section_text := pySlice jd last_end m.1
            let sections :=
              if pyStrip section_text ≠ "" then dictInsert sections current_section section_text
              else sections
            (sections, m.2.2, pySlice jd m.2.1 m.2.2))
          st)
      (([] : List (String × String)), 0, "Introduction")
  let sections :=
    if st.2.1 < cs.length then dictInsert st.1 st.2.2 (pySlice jd st.2.1 cs.length) else st.1
  if sections.isEmpty then [("Requirements", jd)] else sections

/-- The `SECTION_WEIGHTS` table, in source (dict insertion) order. -/
def SECTION_WEIGHTS : List (String × ℚ) :=
  [("requirements", 3), ("required", 3), ("must have", 3), ("qualifications", mkRat 5 2),
   ("responsibilities", 2), ("preferred", mkRat 3 2), ("nice to have", 1), ("plus", 1),
   ("bonus", mkRat 4 5), ("default", 1)]

/-- The inner weight lookup of `_get_section_weight`: the first table key
contained in the section name (lowered), else the `'default'` weight 1.0. -/
def weightOfSectionName (section_name : String) : ℚ :=
  match SECTION_WEIGHTS.find? (fun w => pyContains (pyLower section_name) w.1) with
  | some w => w.2
  | none => 1

/-- `KeywordPrioritizer._get_section_weight`. -/
def get_section_weight (keyword jd : String) : ℚ :=
  let sections := identify_sections jd
  let keyword_lower := pyLower keyword
  match sections.find? (fun sec => pyContains (pyLower sec.2) keyword_lower) with
  | some sec => weightOfSectionName sec.1
  | none => 1

/-- Bonus check 1: the keyword occurs (case-insensitively) in the first 200
characters. -/
def appearsInIntro (keyword jd : String) : Bool :=
  pyContains (pyLower (pyTake jd 200)) (pyLower keyword)

/-- Bonus check 2: `re.search(r'\b' + KEYWORD.upper() + r'\b', jd)`
(case-sensitive: the fully-uppercased form occurs at word boundaries). -/
def appearsCapitalized (keyword jd : String) : Bool :=
  let cs := jd.data
  let kw := (pyUpper keyword).data
  (List.range (cs.length + 1)).any (fun i =>
    boundaryAt cs i && litAt cs i kw && boundaryAt cs (i + kw.length))

/-- An emphasis character, regex class `[\*_]`. -/
def isEmphChar (c : Char) : Bool := c == '*' || c == '_'

/-- `n` emphasis characters at position `i`. -/
def emphRunAt (cs : List Char) (i n : Nat) : Bool :=
  (List.range n).all (fun k =>
    match cs.get? (i + k) with
    | some c => isEmphChar c
    | none => false)

/-- Bonus check 3: `re.search(r'[\*_]{1,2}' + kw + r'[\*_]{1,2}', jd, re.I)`:
some position carries one or two emphasis characters, the keyword
(case-insensitively), then one or two emphasis characters. -/
def appearsEmphasized (keyword jd : String) : Bool :=
  let cs := jd.data
  let kw := keyword.data
  (List.range (cs.length + 1)).any (fun i =>
    [1, 2].any (fun pre =>
      emphRunAt cs i pre && litCIAt cs (i + pre) kw &&
        [1, 2].any (fun post => emphRunAt cs (i + pre + kw.length) post)))

/-- `KeywordPrioritizer._get_context_bonus`: +0.3 for the intro, +0.2 for the
uppercased word-boundary form, +0.2 for markup emphasis, capped at 1.0.
(The method reads only the keyword and the job description — it receives no
job title and checks none.) -/
def get_context_bonus (keyword jd : String) : ℚ :=
  let bonus : ℚ := 0
  let bonus := if appearsInIntro keyword jd then ratAdd bonus (mkRat 3 10) else bonus
  let bonus := if appearsCapitalized keyword jd then ratAdd bonus (mkRat 2 10) else bonus
  let bonus := if appearsEmphasized keyword jd then ratAdd bonus (mkRat 2 10) else bonus
  min bonus 1

/-- `KeywordPrioritizer._calculate_priority_score`:
`frequency * section_weight * (1 + context_bonus)`. -/
def calculate_priority_score (keyword jd : String) : ℚ :=
  let frequency := count_frequency keyword jd
  let section_weight := get_section_weight keyword jd
  let context_bonus := get_context_bonus keyword jd
  let base_score := ratMul (natToRat frequency) section_weight
  ratMul base_score (ratAdd (mkRat 1 1) context_bonus)

/-- `KeywordPrioritizer.prioritize_keywords`: score each keyword against the
job description, then sort by score, highest first.  Python's
`list.sort(key=..., reverse=True)` is a stable descending sort; on a total
preorder of keys every stable sort returns the same list, so it is embedded
as the stable insertion sort ordered by `b.2 ≤ a.2`. -/
def prioritize_keywords (missing_keywords : List String) (jd : String) :
    List (String × ℚ) :=
  let scored_keywords := missing_keywords.map (fun kw => (kw, calculate_priority_score kw jd))
  scored_keywords.insertionSort (fun a b => b.2 ≤ a.2)

/-! ## Site extraction (`latex_optimizer.py`, `_extract_items`)

Pattern 1 finds custom item commands `\\(?:resume|cv|custom)?[iI]tem\s*\{` by
scanning, then brace-matches the argument; a span is emitted only when a
matching close brace is found, and scanning resumes after the span (or one
past the open brace on failure).  Pattern 2, used only when pattern 1 finds
nothing, is the `re.finditer` of the line-oriented
`\\item\s+([^\n]+(?:\n(?!\s*\\item|\s*\\end|\s*$)[^\n]+)*)` grammar. -/

/-- The `[iI]tem\s*\{` tail of the custom item pattern at position `q`;
returns the position after the opening brace. -/
def matchItemTail (cs : List Char) (q : Nat) : Option Nat :=
  if litAt cs q "item".data || litAt cs q "Item".data then
    let w := skipWs cs (q + 4)
    if cs.get? w == some '{' then some (w + 1) else none
  else none

/-- One alternative of the optional prefix `(?:resume|cv|custom)?`: the
prefix literal at `p+1`, then the `[iI]tem\s*\{` tail. -/
def matchItemPre (cs : List Char) (p : Nat) (pre : List Char) : Option Nat :=
  if litAt cs (p + 1) pre then matchItemTail cs (p + 1 + pre.length) else none

/-- The full custom item pattern `\\(?:resume|cv|custom)?[iI]tem\s*\{` at
position `p` (alternatives tried in the regex's order, the empty prefix
last); returns the match end (position after `{`). -/
def matchItemCmd (cs : List Char) (p : Nat) : Option Nat :=
  if cs.get? p == some '\\' then
    match matchItemPre cs p "resume".data with
    | some e => some e
    | none =>
        match matchItemPre cs p "cv".data with
        | some e => some e
        | none =>
            match matchItemPre cs p "custom".data with
            | some e => some e
            | none => matchItemPre cs p ([] : List Char)
  else none

/-- `re.search` of the custom item pattern from position `p`. -/
def searchItemFrom (cs : List Char) : Nat → Nat → Option (Nat × Nat)
  | _, 0 => none
  | p, fuel + 1 =>
      if cs.length < p then none
      else
        match matchItemCmd cs p with
        | some e => some (p, e)
        | none => searchItemFrom cs (p + 1) fuel

/-- The brace-matching `while` loop: from position `i` with `brace_count`
open braces, stepping one character at a time; a brace preceded by a
backslash is ignored (exactly the source's check, which looks only at the
single preceding character).  Returns the final `(i, brace_count)`. -/
def braceScan (cs : List Char) : Nat → Nat → Nat → Nat × Nat
  | i, count, 0 => (i, count)
  | i, count, fuel + 1 =>
      if i < cs.length ∧ 0 < count then
        let count' :=
          if cs.get? i == some '{' && (i == 0 || cs.get? (i - 1) != some '\\') then count + 1
          else if cs.get? i == some '}' && (i == 0 || cs.get? (i - 1) != some '\\') then count - 1
          else count
        braceScan cs (i + 1) count' fuel
      else (i, count)

/-- The pattern-1 loop of `_extract_items`: search, brace-match, emit
`(full command text, start, end)` and continue at the end; on an unmatched
brace continue one past the opening brace without emitting. -/
def customItemsLoop (cs : List Char) (s : String) : Nat → Nat → List (String × Nat × Nat)
  | _, 0 => []
  | pos, fuel + 1 =>
      match searchItemFrom cs pos (cs.length + 1 - pos) with
      | none => []
      | some (start_pos, match_end) =>
          let brace_start := match_end - 1
          let scan := braceScan cs (brace_start + 1) 1 (cs.length + 1)
          if scan.2 = 0 then
            (pySlice s start_pos scan.1, start_pos, scan.1)
              :: customItemsLoop cs s scan.1 fuel
          else customItemsLoop cs s (brace_start + 1) fuel

/-- End of the maximal `[^\n]*` run from `j`. -/
def takeLineEnd (cs : List Char) (j : Nat) : Nat :=
  j + ((cs.drop j).takeWhile (fun c => c != '\n')).length

/-- The negative lookahead body `\s*\\item|\s*\\end|\s*$` at position `k`:
some prefix of the whitespace run at `k` is followed by `\item`, `\end`, or
by `$` (end of string, or just before a final newline). -/
def stdLookaheadBad (cs : List Char) (k : Nat) : Bool :=
  let wEnd := skipWs cs k
  (List.range (wEnd - k + 1)).any (fun d =>
    let p := k + d
    litAt cs p "\\item".data || litAt cs p "\\end".data ||
      (p = cs.length || (p + 1 = cs.length && cs.get? p == some '\n')))

/-- The greedy star `(?:\n(?!…)[^\n]+)*` from position `k`: consume a
newline whose lookahead is clean followed by a nonempty line, repeatedly. -/
def stdStarLoop (cs : List Char) : Nat → Nat → Nat
  | k, 0 => k
  | k, fuel + 1 =>
      if cs.get? k == some '\n' && !(stdLookaheadBad cs (k + 1)) then
        let lineEnd := takeLineEnd cs (k + 1)
        if k + 1 < lineEnd then stdStarLoop cs lineEnd fuel else k
      else k

/-- The standard item pattern at position `p`: `\\item`, then `\s+` (greedy,
backtracking to shorter whitespace runs), then the group
`[^\n]+(?:\n(?!…)[^\n]+)*`.  Returns `(group-1 start, match end)`. -/
def matchStdItem (cs : List Char) (p : Nat) : Option (Nat × Nat) :=
  if litAt cs p "\\item".data then
    let base := p + 5
    let wsEnd := skipWs cs base
    ((List.range (wsEnd - base)).map (fun d => wsEnd - d)).findSome? (fun j =>
      let lineEnd := takeLineEnd cs j
      if j < lineEnd then some (j, stdStarLoop cs lineEnd (cs.length + 1)) else none)
  else none

/-- `re.search` of the standard item pattern from `p`:
`(match start, group-1 start, match end)`. -/
def searchStdFrom (cs : List Char) : Nat → Nat → Option (Nat × Nat × Nat)
  | _, 0 => none
  | p, fuel + 1 =>
      if cs.length < p then none
      else
        match matchStdItem cs p with
        | some (g1s, e) => some (p, g1s, e)
        | none => searchStdFrom cs (p + 1) fuel

/-- The `re.finditer` loop over the standard item pattern, emitting
`(group(1).strip(), match start, match end)`. -/
def stdItemsLoop (cs : List Char) (s : String) : Nat → Nat → List (String × Nat × Nat)
  | _, 0 => []
  | pos, fuel + 1 =>
      match searchStdFrom cs pos (cs.length + 1 - pos) with
      | none => []
      | some (p, g1s, e) =>
          (pyStrip (pySlice s g1s e), p, e) :: stdItemsLoop cs s (max e (p + 1)) fuel

/-- `LaTeXOptimizer._extract_items`: pattern-1 spans, falling back to the
pattern-2 spans only when pattern 1 found none. -/
def extract_items (s : String) : List (String × Nat × Nat) :=
  let cs := s.data
  let items := customItemsLoop cs s 0 (cs.length + 1)
  if items.isEmpty then stdItemsLoop cs s 0 (cs.length + 1) else items

/-- Two extracted spans in list order: disjoint, and in strictly increasing
start order. -/
def spanRel (a b : String × Nat × Nat) : Prop := a.2.2 ≤ b.2.1 ∧ a.2.1 < b.2.1

/-! ## Cleaning LaTeX commands (`_clean_latex_commands`)

Four sequential `re.sub` passes (`\textbf{…}`, `\textit{…}`, `\emph{…}`,
`\href{…}{…}`, each argument `[^}]+`), then `strip()`. -/

/-- One `re.sub(cmd + r'\{([^}]+)\}', r'\1', …)` pass: scan left to right; at
a match (the command opener, a nonempty brace-free argument, a closing brace)
emit the argument and continue after the match, otherwise advance one
character. -/
def subSimpleCmd (cmd : List Char) : List Char → Nat → List Char
  | cs, 0 => cs
  | cs, fuel + 1 =>
      match cs with
      | [] => []
      | c :: rest =>
          if cmd.isPrefixOf (c :: rest) then
            let after := (c :: rest).drop cmd.length
            let content := after.takeWhile (fun ch => ch != '}')
            if 0 < content.length ∧ (after.drop content.length).head? = some '}' then
              content ++ subSimpleCmd cmd (after.drop (content.length + 1)) fuel
            else c :: subSimpleCmd cmd rest fuel
          else c :: subSimpleCmd cmd rest fuel

/-- The `re.sub(r'\\href\{[^}]+\}\{([^}]+)\}', r'\1', …)` pass. -/
def subHref : List Char → Nat → List Char
  | cs, 0 => cs
  | cs, fuel + 1 =>
      match cs with
      | [] => []
      | c :: rest =>
          if "\\href\x7b".data.isPrefixOf (c :: rest) then
            let after1 := (c :: rest).drop 6
            let url := after1.takeWhile (fun ch => ch != '}')
            if 0 < url.length ∧ (after1.drop url.length).head? = some '}'
                ∧ (after1.drop (url.length + 1)).head? = some '{' then
              let after2 := after1.drop (url.length + 2)
              let content := after2.takeWhile (fun ch => ch != '}')
              if 0 < content.length ∧ (after2.drop content.length).head? = some '}' then
                content ++ subHref (after2.drop (content.length + 1)) fuel
              else c :: subHref rest fuel
            else c :: subHref rest fuel
          else c :: subHref rest fuel

/-- `LaTeXOptimizer._clean_latex_commands`. -/
def clean_latex_commands (text : String) : String :=
  let cs1 := subSimpleCmd "\\textbf\x7b".data text.data (text.data.length + 1)
  let cs2 := subSimpleCmd "\\textit\x7b".data cs1 (cs1.length + 1)
  let cs3 := subSimpleCmd "\\emph\x7b".data cs2 (cs2.length + 1)
  let cs4 := subHref cs3 (cs3.length + 1)
  pyStrip cs4.asString

/-! ## Bullet enhancement (`_enhance_bullet_latex_style`)

The AI call `self.ai.optimize_text(prompt, …)` for each of the three
escalating strategies is an oracle taking the strategy number, the text the
prompt embeds (the inner bullet text for strategies 1–2, its de-LaTeXed form
for strategy 3) and the keyword; prompt templating around these inputs is
pure string formatting consumed only by the external model. -/

/-- The three-layer validator as installed in `LaTeXOptimizer.__init__`:
`(keyword, context, job_context, strict_mode) ↦ result dict`. -/
def MLValidator := String → String → Option String → Bool → MLVResult

/-- The strategy-wise AI rewrite oracle (raising = `Except.error`). -/
def EnhanceOracle := Nat → String → String → Except String String

/-- The largest index `q ≥ lo` holding a closing brace (where the greedy
DOTALL `(.+)` of the wrapper regex ends). -/
def lastCloseBraceFrom (cs : List Char) (lo : Nat) : Option Nat :=
  ((List.range cs.length).filter (fun q => decide (lo ≤ q) && (cs.get? q == some '}'))).getLast?

/-- `re.match(r'(\\[a-zA-Z]+\s*\{)(.+)(\})', original_bullet, re.DOTALL)`:
a backslash, letters, optional whitespace, an opening brace, at least one
character, and the last closing brace.  Returns `(wrapper_start, inner)`;
the third group is always `"}"`. -/
def parseWrapper (original_bullet : String) : Option (String × String) :=
  let cs := original_bullet.data
  if cs.get? 0 == some '\\' then
    let letters := ((cs.drop 1).takeWhile (fun c => c.isAlpha)).length
    if 0 < letters then
      let w := skipWs cs (1 + letters)
      if cs.get? w == some '{' then
        match lastCloseBraceFrom cs (w + 2) with
        | some q => some (pySlice original_bullet 0 (w + 1), pySlice original_bullet (w + 1) q)
        | none => none
      else none
    else none
  else none

/-- `LaTeXOptimizer._manual_insert_keyword`. -/
def manual_insert_keyword (text keyword : String) (max_length : Nat) : String :=
  let test :=
    if pyEndsWith text "." then pySlice text 0 (text.data.length - 1) ++ " " ++ keyword ++ "."
    else text ++ " " ++ keyword
  if decide (natToRat test.data.length ≤ ratMul (natToRat max_length) (mkRat 23 20)) then test
  else text

/-- The strategy loop of `_enhance_bullet_latex_style`: each strategy's AI
response is stripped, de-fenced (`split('```')[0]` — empty when the response
starts with a fence), de-quoted, and accepted when its cleaned length is at
most `char_count * (1 + i*0.05)` and it contains the keyword
case-insensitively; an oracle exception moves to the next strategy; after all
three, the manual insertion fallback. -/
def enhanceStrategies (ai : EnhanceOracle) (inner clean keyword : String)
    (char_count : Nat) : List Nat → String
  | [] => manual_insert_keyword inner keyword char_count
  | i :: rest =>
      match ai i (if i = 3 then clean else inner) keyword with
      | .error _ => enhanceStrategies ai inner clean keyword char_count rest
      | .ok response =>
          let enhanced := pyStrip response
          let enhanced :=
            if pyStartsWith enhanced "```" then pyStrip ((enhanced.splitOn "```").headD "")
            else enhanced
          let enhanced :=
            if pyStartsWith enhanced "\"" && pyEndsWith enhanced "\"" then
              pySlice enhanced 1 (enhanced.data.length - 1)
            else enhanced
          let max_length := ratMul (natToRat char_count) (ratAdd (mkRat 1 1) (mkRat i 20))
          if decide (natToRat (clean_latex_commands enhanced).data.length ≤ max_length)
              && pyContainsCI enhanced keyword
          then enhanced
          else enhanceStrategies ai inner clean keyword char_count rest

/-- `LaTeXOptimizer._enhance_bullet_latex_style`: extract the wrapper when the
bullet is a braced command, run the strategies on the inner text, and put the
wrapper back around the result (both the per-strategy success return and the
manual fallback re-wrap identically). -/
def enhance_bullet (ai : EnhanceOracle) (original_bullet keyword : String) : String :=
  let wrapper : Option (String × String) :=
    if pyStartsWith original_bullet "\\" && pyContains original_bullet "\x7b"
        && pyContains original_bullet "\x7d" then
      parseWrapper original_bullet
    else none
  let inner_text := match wrapper with | some w => w.2 | none => original_bullet
  let clean_text := clean_latex_commands inner_text
  let char_count := clean_text.data.length
  let enhanced := enhanceStrategies ai inner_text clean_text keyword char_count [1, 2, 3]
  match wrapper with
  | some w => w.1 ++ enhanced ++ "\x7d"
  | none => enhanced

/-! ## The skills-section fallback (`_add_to_skills_section`) -/

/-- Search (case-insensitive, from `l`) for `lit` followed by `([^}]+)(\})`:
the first position where the literal matches *and* a nonempty brace-free run
then a closing brace follow (the regex backtracks past positions where the
tail fails).  Returns `(start, content start, content end, match end)`. -/
def skillsLitSearch (cs : List Char) (lit : List Char) : Nat → Nat → Option (Nat × Nat × Nat × Nat)
  | _, 0 => none
  | l, fuel + 1 =>
      if cs.length < l then none
      else if litCIAt cs l lit then
        let c := l + lit.length
        let run := ((cs.drop c).takeWhile (fun ch => ch != '}')).length
        if 0 < run ∧ cs.get? (c + run) == some '}' then some (l, c, c + run, c + run + 1)
        else skillsLitSearch cs lit (l + 1) fuel
      else skillsLitSearch cs lit (l + 1) fuel

/-- The first pattern of `_add_to_skills_section`:
`(\\section\{Technical Skills\}.*?\\textbf\{Languages\}\{:)([^}]+)(\})` with
DOTALL and IGNORECASE — the leftmost section literal from which the lazy gap
reaches a languages literal whose `[^}]+\}` tail succeeds. -/
def skillsSectionSearch (cs secLit langLit : List Char) : Nat → Nat → Option (Nat × Nat × Nat × Nat)
  | _, 0 => none
  | p, fuel + 1 =>
      if cs.length < p then none
      else if litCIAt cs p secLit then
        match skillsLitSearch cs langLit (p + secLit.length) (cs.length + 1) with
        | some r => some (p, r.2.1, r.2.2.1, r.2.2.2)
        | none => skillsSectionSearch cs secLit langLit (p + 1) fuel
      else skillsSectionSearch cs secLit langLit (p + 1) fuel

/-- `LaTeXOptimizer._add_to_skills_section`: find the skills list (section +
Languages label, falling back to a Stack label), append each keyword not
already present case-insensitively, and substitute the rewritten group for
the first occurrence of the matched text. -/
def add_to_skills_section (latex_content : String) (keywords : List String) :
    String × List String :=
  let cs := latex_content.data
  let skills_match :=
    match skillsSectionSearch cs "\\section{Technical Skills}".data
        "\\textbf{Languages}\x7b:".data 0 (cs.length + 1) with
    | some r => some r
    | none => skillsLitSearch cs "\\textbf{Stack}\x7b:".data 0 (cs.length + 1)
  match skills_match with
  | some (mstart, c, ce, mend) =>
      let groupPre := pySlice latex_content mstart c
      let existing0 := pySlice latex_content c ce
      let step :=
        keywords.foldl
          (fun (acc : String × List String) kw =>
            if !(pyContainsCI acc.1 kw) then (pyRstrip acc.1 ++ ", " ++ kw, acc.2 ++ [kw])
            else acc)
          (existing0, [])
      let new_section := groupPre ++ step.1 ++ "\x7d"
      let group0 := pySlice latex_content mstart mend
      (pyReplaceFirst latex_content group0 new_section, step.2)
  | none => (latex_content, [])

/-! ## The optimizer (`optimize_latex_resume`)

The control flow of `LaTeXOptimizer.optimize_latex_resume`, including the
leftover duplicate of the enhancement block (source lines 185–216), which
runs after the decision branch of every keyword iteration and reads the
function-scoped locals `original_item`, `validation` and `i` — unbound when
no bullet was ever scanned — and `prioritized_keywords.pop(0)`; and the final
summary line, which reads `skills_added` — unbound when no keyword was
rejected.  Reading an unbound local raises `UnboundLocalError`.  With a
non-empty `job_description` the method calls
`self.keyword_prioritizer.prioritize_keywords(missing_keywords,
job_description, job_title)` — but `prioritize_keywords` accepts only two
arguments beside `self`, so the call raises `TypeError` (and its result would
be indexed as dicts, `kw['keyword']`, though it returns tuples). -/

/-- One recorded entry of `self.changes_made` (the skills-path entries carry
a literal rationale dict in place of a validator result, rendered `none`
here). -/
structure OptChange where
  keyword : String
  section' : String
  before : String
  after : String
  validation : Option MLVResult
  confidence : String
  layers_approved : String
  placement_score : Option ℚ
deriving DecidableEq, Repr

/-- The state of the inner best-placement loop (`for i, (original_item, …) in
enumerate(items[:max_bullets])`): the enumeration index, the best placement
found (index and validation, updated together), its score, and the loop-bound
locals that persist after the loop. -/
structure ScanState where
  idx : Nat
  best : Option (Nat × MLVResult)
  best_validation_score : ℚ
  original_item : Option String
  validation : Option MLVResult
  i_idx : Option Nat

/-- The function-scoped locals threaded through the keyword loop. -/
structure OptLocals where
  optimized_latex : String
  added_keywords : List String
  rejected_keywords : List String
  changes_made : List OptChange
  prioritized_keywords : List String
  original_item : Option String
  validation : Option MLVResult
  i_idx : Option Nat

/-- One iteration of the inner placement loop: validate the keyword against
the cleaned bullet (majority mode, job context truncated to 500 characters),
score a valid placement 50/65/85 by confidence plus `similarity * 15` when a
layer-3 score is present (Python float truthiness: only a nonzero score),
capped at 100, and keep the strictly best. -/
def scanStep (validator : MLValidator) (job_description keyword : String)
    (st : ScanState) (item : String × Nat × Nat) : ScanState :=
  let clean_bullet := clean_latex_commands item.1
  let v := validator keyword clean_bullet
    (if job_description ≠ "" then some (pyTake job_description 500) else none) false
  let score? : Option ℚ :=
    if v.valid then
      let score : ℚ :=
        if v.overall_confidence = "HIGH" then natToRat 85
        else if v.overall_confidence = "MEDIUM" then natToRat 65
        else natToRat 50
      let score :=
        match v.layer3_result with
        | some r =>
            if r.similarity_score ≠ 0 then ratAdd score (ratMul r.similarity_score (natToRat 15))
            else score
        | none => score
      some (min score (natToRat 100))
    else none
  let next :=
    match score? with
    | some sc =>
        if st.best_validation_score < sc then
          { st with best := some (st.idx, v), best_validation_score := sc }
        else st
    | none => st
  { next with
    idx := st.idx + 1, original_item := some item.1, validation := some v,
    i_idx := some st.idx }

/-- The body of the keyword loop: skip a falsy keyword; scan the first 20
bullets; insert into the best bullet when its score reaches 50 (recording one
ledger entry on verified insertion, else deferring the keyword); then the
leftover duplicate block, which enhances `original_item` again, re-applies
the substitution, appends the keyword and a second ledger entry built from
the *last* loop iteration's `validation`, and pops `prioritized_keywords` —
raising when it reads a local that was never bound. -/
def processKeyword (validator : MLValidator) (ai : EnhanceOracle) (job_description : String)
    (items : List (String × Nat × Nat)) (st : OptLocals) (keyword : String) :
    Except String OptLocals :=
  if keyword = "" then pure st
  else
    let scan0 : ScanState :=
      { idx := 0, best := none, best_validation_score := 0,
        original_item := st.original_item, validation := st.validation, i_idx := st.i_idx }
    let scan := (items.take 20).foldl (scanStep validator job_description keyword) scan0
    let st1 : OptLocals :=
      { st with
        original_item := scan.original_item, validation := scan.validation,
        i_idx := scan.i_idx }
    let st2 : OptLocals :=
      match scan.best with
      | some (bi, bv) =>
          if decide (natToRat 50 ≤ scan.best_validation_score) then
            let original_item := ((items.get? bi).getD ("", 0, 0)).1
            let enhanced_item := enhance_bullet ai original_item keyword
            if pyContainsCI enhanced_item keyword && enhanced_item ≠ original_item then
              { st1 with
                optimized_latex := pyReplaceFirst st1.optimized_latex original_item enhanced_item,
                added_keywords := st1.added_keywords ++ [keyword],
                changes_made := st1.changes_made ++
                  [{ keyword := keyword, section' := "experience", before := original_item,
                     after := enhanced_item, validation := some bv,
                     confidence := bv.overall_confidence, layers_approved := bv.decision_path,
                     placement_score := some scan.best_validation_score }],
                original_item := some original_item }
            else
              { st1 with
                rejected_keywords := st1.rejected_keywords ++ [keyword],
                original_item := some original_item }
          else { st1 with rejected_keywords := st1.rejected_keywords ++ [keyword] }
      | none => { st1 with rejected_keywords := st1.rejected_keywords ++ [keyword] }
    match st2.original_item with
    | none => throw "UnboundLocalError: local variable original_item referenced before assignment"
    | some original_item =>
        let enhanced_item := enhance_bullet ai original_item keyword
        if pyContainsCI enhanced_item keyword && enhanced_item ≠ original_item then
          let optimized := pyReplaceFirst st2.optimized_latex original_item enhanced_item
          match st2.prioritized_keywords with
          | [] => throw "IndexError: pop from empty list"
          | _ :: restKw =>
              match st2.validation with
              | none =>
                  throw "UnboundLocalError: local variable validation referenced before assignment"
              | some v =>
                  match st2.i_idx with
                  | none => throw "UnboundLocalError: local variable i referenced before assignment"
                  | some _ =>
                      pure { st2 with
                        optimized_latex := optimized,
                        added_keywords := st2.added_keywords ++ [keyword],
                        prioritized_keywords := restKw,
                        changes_made := st2.changes_made ++
                          [{ keyword := keyword, section' := "experience",
                             before := original_item, after := enhanced_item,
                             validation := some v, confidence := v.overall_confidence,
                             layers_approved := v.decision_path, placement_score := none }] }
        else
          match st2.i_idx with
          | none => throw "UnboundLocalError: local variable i referenced before assignment"
          | some _ => pure st2

/-- `LaTeXOptimizer.optimize_latex_resume`, over the validator and AI oracle
installed at construction.  Returns
`(optimized_latex, added_keywords, changes_made)`, or the uncaught Python
exception. -/
def optimize_latex_resume (validator : MLValidator) (ai : EnhanceOracle)
    (latex_content : String) (missing_keywords : List String)
    (job_description : String) (_job_title : String) :
    Except String (String × List String × List OptChange) := do
  let prioritized_keywords ←
    if job_description ≠ "" then
      throw "TypeError: prioritize_keywords() takes 3 positional arguments but 4 were given"
    else
      pure missing_keywords
  let items := extract_items latex_content
  let st0 : OptLocals :=
    { optimized_latex := latex_content, added_keywords := [], rejected_keywords := [],
      changes_made := [], prioritized_keywords := prioritized_keywords,
      original_item := none, validation := none, i_idx := none }
  let st ← prioritized_keywords.foldlM (processKeyword validator ai job_description items) st0
  let res ←
    if st.rejected_keywords ≠ [] then
      let out := add_to_skills_section st.optimized_latex (st.rejected_keywords.take 15)
      pure ({ st with
              optimized_latex := out.1,
              changes_made := st.changes_made ++ out.2.map (fun kw =>
                ({ keyword := kw, section' := "skills", before := "", after := kw,
                   validation := none, confidence := "HIGH",
                   layers_approved := "Skills (bypass validation)",
                   placement_score := none } : OptChange)),
              added_keywords := st.added_keywords ++ out.2 }, some out.2)
    else pure (st, (none : Option (List String)))
  match res.2 with
  | none => throw "UnboundLocalError: local variable skills_added referenced before assignment"
  | some _ => pure (res.1.optimized_latex, res.1.added_keywords, res.1.changes_made)

/-- A fixed three-layer verdict oracle for concrete optimizer runs: `Docker`
is approved everywhere with HIGH confidence, everything else is rejected. -/
def demoValidator : MLValidator := fun kw _ _ _ =>
  if kw = "Docker" then
    { valid := true, overall_confidence := "HIGH",
      layer1_result := { valid := true, confidence := "HIGH",
                         keyword_ecosystems := [], context_ecosystems := [] },
      layer2_result := none, layer3_result := none, decision_path := "Layer1 → Layer3" }
  else
    { valid := false, overall_confidence := "HIGH",
      layer1_result := { valid := false, confidence := "HIGH",
                         keyword_ecosystems := [], context_ecosystems := [] },
      layer2_result := none, layer3_result := none, decision_path := "Layer1" }

/-- A deterministic AI backend for concrete optimizer runs: rewrites with
`Docker`, raises for any other keyword. -/
def demoAi : EnhanceOracle := fun _ _ kw =>
  if kw = "Docker" then Except.ok "w/ Docker" else Except.error "RateLimited"

/-- The concrete run for claim C6: one bullet, the approved term `Docker` and
the everywhere-rejected term `Foo`. -/
def demoRun : Except String (String × List String × List OptChange) :=
  optimize_latex_resume demoValidator demoAi "\\resumeItem{Built APIs}" ["Docker", "Foo"] "" ""

/-- `X` occurs strictly before `Y` in the ranked list: every entry named `X`
has a smaller index than every entry named `Y`. -/
def StrictlyBefore (X Y : String) (r : List (String × ℚ)) : Prop :=
  ∀ i j : Fin r.length, (r.get i).1 = X → (r.get j).1 = Y → (i : ℕ) < (j : ℕ)

/-- Modelled from the spec's §4.1 contract for comparison with the code (claim
C7): the specified `context_bonus`, which takes the job title and includes an
additional `+0.2` when the term appears in the title; the intro bonus and the
emphasis bonus (`capitalized or markup-emphasized`, one `+0.2`) follow the
spec's words, reusing the code's checks for those parts. -/
def context_bonus_specified (keyword jd title : String) : ℚ :=
  let bonus : ℚ := 0
  let bonus := if appearsInIntro keyword jd then ratAdd bonus (mkRat 3 10) else bonus
  let bonus :=
    if appearsCapitalized keyword jd || appearsEmphasized keyword jd
    then ratAdd bonus (mkRat 2 10) else bonus
  let bonus :=
    if pyContains (pyLower title) (pyLower keyword) then ratAdd bonus (mkRat 2 10) else bonus
  min bonus 1

/-! ## Theorems

The properties of the embedded operations: claims C1-C10 and their
supporting lemmas, witnesses and counterexamples. -/

theorem ratAdd_eq (a b : ℚ) : ratAdd a b = a + b := by
  rw [ratAdd, Rat.mkRat_eq_div, Rat.add_def, Rat.normalize_eq_mkRat, Rat.mkRat_eq_div]

theorem ratSub_eq (a b : ℚ) : ratSub a b = a - b := by
  rw [ratSub, Rat.mkRat_eq_div, Rat.sub_def, Rat.normalize_eq_mkRat, Rat.mkRat_eq_div]

theorem ratMul_eq (a b : ℚ) : ratMul a b = a * b := by
  rw [ratMul, Rat.mkRat_eq_div, Rat.mul_def, Rat.normalize_eq_mkRat, Rat.mkRat_eq_div]

theorem natToRat_eq (n : Nat) : natToRat n = (n : ℚ) := by
  rw [natToRat, Rat.mkRat_eq_div]
  simp

theorem ratDivNat_eq (a : ℚ) (n : Nat) : ratDivNat a n = a / (n : ℚ) := by
  rw [ratDivNat, Rat.mkRat_eq_div]
  push_cast
  rw [← div_div, Rat.num_div_den]

theorem digitChar_inj_lt10 : ∀ m < 10, ∀ n < 10, Nat.digitChar m = Nat.digitChar n → m = n := by
  decide

theorem natToDecimal_lt (n : Nat) (h : n < 10) : natToDecimal n = [Nat.digitChar n] := by
  rw [natToDecimal]
  simp [h]

theorem natToDecimal_ge (n : Nat) (h : ¬ n < 10) :
    natToDecimal n = natToDecimal (n / 10) ++ [Nat.digitChar (n % 10)] := by
  conv_lhs => rw [natToDecimal]
  simp [h]

theorem natToDecimal_ne_nil (n : Nat) : natToDecimal n ≠ [] := by
  by_cases h : n < 10
  · rw [natToDecimal_lt n h]
    simp
  · rw [natToDecimal_ge n h]
    simp

theorem natToDecimal_inj : ∀ m n : Nat, natToDecimal m = natToDecimal n → m = n := by
  intro m
  induction m using Nat.strong_induction_on with
  | _ m ih =>
    intro n h
    by_cases hm : m < 10 <;> by_cases hn : n < 10
    · rw [natToDecimal_lt m hm, natToDecimal_lt n hn] at h
      exact digitChar_inj_lt10 m hm n hn (List.singleton_injective h)
    · rw [natToDecimal_lt m hm, natToDecimal_ge n hn] at h
      have hlen := congrArg List.length h
      simp at hlen
      exact absurd hlen (natToDecimal_ne_nil _)
    · rw [natToDecimal_ge m hm, natToDecimal_lt n hn] at h
      have hlen := congrArg List.length h
      simp at hlen
      exact absurd hlen (natToDecimal_ne_nil _)
    · rw [natToDecimal_ge m hm, natToDecimal_ge n hn] at h
      have h' := congrArg List.reverse h
      simp at h'
      obtain ⟨hdig, hrest⟩ := h'
      have hdiv : m / 10 = n / 10 :=
        ih (m / 10) (Nat.div_lt_self (by omega) (by omega)) (n / 10) hrest
      have hmod : m % 10 = n % 10 :=
        digitChar_inj_lt10 _ (Nat.mod_lt _ (by omega)) _ (Nat.mod_lt _ (by omega)) hdig
      omega

theorem changeId_inj : Function.Injective changeId := by
  intro m n h
  have hdata := congrArg String.data h
  simp only [changeId, String.data_append] at hdata
  have : (pyStr m).data = (pyStr n).data := List.append_cancel_left hdata
  simp only [pyStr, List.asString] at this
  exact natToDecimal_inj m n this

theorem applyTrackerOp_changes (t : ChangeTracker) (op : TrackerOp) :
    ∃ c : Change, (applyTrackerOp t op).2.changes = t.changes ++ [c]
      ∧ c.id = changeId (t.change_counter + 1)
      ∧ (applyTrackerOp t op).2.change_counter = t.change_counter + 1 := by
  cases op <;>
    exact ⟨_, rfl, rfl, rfl⟩

theorem runOps_ids (ops : List TrackerOp) : ∀ t : ChangeTracker,
    (runOps t ops).change_counter = t.change_counter + ops.length
      ∧ (runOps t ops).changes.map (fun c => c.id)
        = t.changes.map (fun c => c.id)
          ++ (List.range ops.length).map (fun k => changeId (t.change_counter + k + 1)) := by
  induction ops with
  | nil => intro t; simp [runOps]
  | cons op rest ih =>
    intro t
    obtain ⟨c, hc, hid, hcounter⟩ := applyTrackerOp_changes t op
    have hstep : runOps t (op :: rest) = runOps (applyTrackerOp t op).2 rest := rfl
    obtain ⟨ihc, ihm⟩ := ih (applyTrackerOp t op).2
    rw [hstep]
    constructor
    · rw [ihc, hcounter]
      simp
      omega
    · rw [ihm, hc, hcounter]
      simp only [List.map_append, List.map_cons, List.map_nil, hid, List.length_cons,
        List.range_succ_eq_map, List.map_map, List.append_assoc]
      have harg : (fun k => changeId (t.change_counter + 1 + k + 1))
          = fun k => changeId (t.change_counter + (k + 1) + 1) := by
        funext k
        congr 1
        omega
      simp [Function.comp, harg]

/-- C10: the change tracker is append-only with unique ids.  For any sequence
of `track_*` calls starting from a fresh tracker: (a) the recorded ids are
pairwise distinct; (b) they are exactly `change_1 … change_n` in creation
order; and, for any tracker state and any single `track_*` call: (c) the call
appends exactly one change — the previous record list is preserved unchanged
as a prefix — whose id is `change_(counter+1)`, and the counter strictly
increases by one.  The read-only operations (`apply_user_selections`, the
getters, `to_dict`) are embedded as pure functions of the tracker that return
no tracker, matching the Python methods, which write no field. -/
theorem changeTracker_append_only_unique_ids (ops : List TrackerOp) :
    (((runOps ChangeTracker.init ops).changes.map (fun c => c.id)).Nodup
      ∧ (runOps ChangeTracker.init ops).changes.map (fun c => c.id)
          = (List.range ops.length).map (fun k => changeId (k + 1)))
    ∧ ∀ t : ChangeTracker, ∀ op : TrackerOp,
        (applyTrackerOp t op).2.changes.length = t.changes.length + 1
        ∧ (applyTrackerOp t op).2.changes.take t.changes.length = t.changes
        ∧ (applyTrackerOp t op).2.changes.map (fun c => c.id)
            = t.changes.map (fun c => c.id) ++ [changeId (t.change_counter + 1)]
        ∧ (applyTrackerOp t op).2.change_counter = t.change_counter + 1 := by
  constructor
  · obtain ⟨-, hm⟩ := runOps_ids ops ChangeTracker.init
    have hm' : (runOps ChangeTracker.init ops).changes.map (fun c => c.id)
        = (List.range ops.length).map (fun k => changeId (k + 1)) := by
      rw [hm]
      simp [ChangeTracker.init]
    refine ⟨?_, hm'⟩
    rw [hm']
    exact (List.nodup_range _).map (fun a b hab => by
      have := changeId_inj hab
      omega)
  · intro t op
    obtain ⟨c, hc, hid, hcounter⟩ := applyTrackerOp_changes t op
    refine ⟨by rw [hc]; simp, by rw [hc]; simp, by rw [hc]; simp [hid], hcounter⟩

/-- C5: if the term's technology domain is unknown to Layer A (no ecosystem
found for the keyword), or the context contains no recognized technology
domain, then Layer A's verdict is an acceptance with LOW or MEDIUM
confidence — in particular never a HIGH-confidence rejection. -/
theorem layerA_unknown_domain_non_blocking (keyword context : String)
    (h : find_keyword_ecosystems keyword = [] ∨ extract_context_ecosystems context = []) :
    (validate_keyword_in_context keyword context).valid = true
      ∧ ((validate_keyword_in_context keyword context).confidence = "LOW"
          ∨ (validate_keyword_in_context keyword context).confidence = "MEDIUM") := by
  unfold validate_keyword_in_context
  by_cases hk : find_keyword_ecosystems keyword = []
  · simp [hk]
  · have hc : extract_context_ecosystems context = [] := h.resolve_left hk
    simp [hk, hc, List.isEmpty_iff]

set_option maxRecDepth 40000 in
/-- Witness for C5 at a concrete input: the term `"zzzz"` belongs to no
ecosystem of the taxonomy, and Layer A accepts it (confidence LOW) against a
recognized backend-flavoured context. -/
theorem layerA_unknown_domain_non_blocking_witness :
    (validate_keyword_in_context "zzzz" "Built REST APIs with Flask").valid = true
      ∧ ((validate_keyword_in_context "zzzz" "Built REST APIs with Flask").confidence = "LOW"
          ∨ (validate_keyword_in_context "zzzz" "Built REST APIs with Flask").confidence
            = "MEDIUM") :=
  layerA_unknown_domain_non_blocking "zzzz" "Built REST APIs with Flask"
    (Or.inl (by decide))

/-- C3: if the text-completion backend raises on every call (so both the
adaptive Layer A and Layer B degrade to their permissive fallbacks, and the
Layer-A cache is empty, since only successful calls are ever cached) and the
embedding model is unavailable (it failed to load, or raises on every call),
then `validate_keyword` returns `valid = true` with overall confidence LOW,
for every term, context, job context and mode.  Every `try` in the layer
implementations catches, so the embedded pipeline is a total function: no
exception reaches the caller. -/
theorem validate_keyword_permissive_degrade
    (llmA : String → String → LlmOutcome AdaptiveJson)
    (llmB : String → String → Option String → LlmOutcome Layer2Json)
    (emb : SemanticBackend)
    (hA : ∀ k c, ∃ e, llmA k c = .raise e)
    (hB : ∀ k c j, ∃ e, llmB k c j = .raise e)
    (hE : emb.model_loaded = false ∨ ∀ k c, ∃ e, emb.encode_similarity k c = .error e)
    (keyword context : String) (job_context : Option String) (strict_mode : Bool) :
    (validate_keyword
        (fun k c => (adaptive_validate_keyword_in_context llmA [] k c).1)
        (some (fun k c j => validate_keyword_insertion llmB k c j))
        (fun k c => validate_keyword_similarity emb k c)
        keyword context job_context strict_mode).valid = true
      ∧ (validate_keyword
          (fun k c => (adaptive_validate_keyword_in_context llmA [] k c).1)
          (some (fun k c j => validate_keyword_insertion llmB k c j))
          (fun k c => validate_keyword_similarity emb k c)
          keyword context job_context strict_mode).overall_confidence = "LOW" := by
  obtain ⟨eA, heA⟩ := hA keyword context
  obtain ⟨eB, heB⟩ := hB keyword context job_context
  have hsim : compute_similarity emb keyword context = mkRat 1 2 := by
    rcases hE with h | h
    · simp [compute_similarity, h]
    · obtain ⟨e, he⟩ := h keyword context
      by_cases hl : emb.model_loaded
      · simp [compute_similarity, hl, he]
      · simp [compute_similarity, hl]
  have hround : pyRound (mkRat 1 2) 3 = mkRat 1 2 := by decide
  have hl3 : validate_keyword_similarity emb keyword context =
      { valid := true, confidence := "MEDIUM", similarity_score := mkRat 1 2 } := by
    rw [validate_keyword_similarity, hsim]
    rw [if_neg (by decide), if_pos (by decide), hround]
  simp only [validate_keyword, adaptive_validate_keyword_in_context, List.lookup, heA,
    validate_keyword_insertion, heB, hl3, mlvFinish]
  cases strict_mode <;> (simp; try decide)

/-- Witness for C3: with an always-raising completion backend, an
always-raising embedding backend that moreover failed to load, and concrete
inputs, validation accepts with LOW confidence. -/
theorem validate_keyword_permissive_degrade_witness :
    (validate_keyword
        (fun k c => (adaptive_validate_keyword_in_context
          (fun _ _ => LlmOutcome.raise "ProviderUnavailable") [] k c).1)
        (some (fun k c j => validate_keyword_insertion
          (fun _ _ _ => LlmOutcome.raise "ProviderUnavailable") k c j))
        (fun k c => validate_keyword_similarity
          ⟨false, fun _ _ => Except.error "ModelUnavailable"⟩ k c)
        "Kubernetes" "Built REST APIs using Node.js" none false).valid = true
      ∧ (validate_keyword
          (fun k c => (adaptive_validate_keyword_in_context
            (fun _ _ => LlmOutcome.raise "ProviderUnavailable") [] k c).1)
          (some (fun k c j => validate_keyword_insertion
            (fun _ _ _ => LlmOutcome.raise "ProviderUnavailable") k c j))
          (fun k c => validate_keyword_similarity
            ⟨false, fun _ _ => Except.error "ModelUnavailable"⟩ k c)
          "Kubernetes" "Built REST APIs using Node.js" none false).overall_confidence = "LOW" :=
  validate_keyword_permissive_degrade
    (fun _ _ => LlmOutcome.raise "ProviderUnavailable")
    (fun _ _ _ => LlmOutcome.raise "ProviderUnavailable")
    ⟨false, fun _ _ => Except.error "ModelUnavailable"⟩
    (fun _ _ => ⟨"ProviderUnavailable", rfl⟩)
    (fun _ _ _ => ⟨"ProviderUnavailable", rfl⟩)
    (Or.inl rfl)
    "Kubernetes" "Built REST APIs using Node.js" none false

/-- C4 counterexample: a Layer-B verdict that is a rejection with HIGH
confidence but whose risk level is CAUTION (not FABRICATION) does not stop
evaluation — Layer C is still consulted — and in non-strict mode the final
result is an acceptance by majority vote (claim C4 predicts evaluation stops
at Layer B with a rejection). -/
theorem validate_keyword_short_circuit_counterexample :
    (validate_keyword
        (fun _ _ => { valid := true, confidence := "HIGH",
                      keyword_ecosystems := [], context_ecosystems := [] })
        (some (fun _ _ _ => { valid := false, confidence := "HIGH", risk_level := "CAUTION" }))
        (fun _ _ => { valid := true, confidence := "HIGH", similarity_score := 72/100 })
        "Express" "Built REST APIs using Node.js" none false).valid = true
      ∧ (validate_keyword
          (fun _ _ => { valid := true, confidence := "HIGH",
                        keyword_ecosystems := [], context_ecosystems := [] })
          (some (fun _ _ _ => { valid := false, confidence := "HIGH", risk_level := "CAUTION" }))
          (fun _ _ => { valid := true, confidence := "HIGH", similarity_score := 72/100 })
          "Express" "Built REST APIs using Node.js" none false).decision_path
        = "Layer1 → Layer2 → Layer3" := by
  constructor
  · simp [validate_keyword, mlvFinish]
    decide
  · rfl

/-- C4 amended: layers are consulted in the fixed order A, B, C, and the
rejections the code treats as decisive are: at Layer A a rejection with HIGH
confidence (evaluation stops, B and C are not consulted, the result is a
rejection); at Layer B a FABRICATION risk verdict, at any confidence
(evaluation stops, C is not consulted, the result is a rejection); at Layer C
a rejection with HIGH confidence only in strict mode (C is the last layer;
the result is a rejection).  A HIGH-confidence rejection at B without
fabrication risk, or at C in non-strict mode, does not short-circuit and only
enters the majority vote. -/
theorem validate_keyword_decisive_rejections
    (layer1 : String → String → Layer1Result)
    (layer2fn : String → String → Option String → Layer2Result)
    (layer3fn : String → String → Layer3Result)
    (keyword context : String) (job_context : Option String) (strict_mode : Bool) :
    ((layer1 keyword context).valid = false ∧ (layer1 keyword context).confidence = "HIGH" →
      validate_keyword layer1 (some layer2fn) layer3fn keyword context job_context strict_mode
        = { valid := false, overall_confidence := "HIGH",
            layer1_result := layer1 keyword context, layer2_result := none,
            layer3_result := none, decision_path := "Layer1" })
    ∧ (¬((layer1 keyword context).valid = false ∧ (layer1 keyword context).confidence = "HIGH") →
        (layer2fn keyword context job_context).risk_level = "FABRICATION" →
      validate_keyword layer1 (some layer2fn) layer3fn keyword context job_context strict_mode
        = { valid := false, overall_confidence := "HIGH",
            layer1_result := layer1 keyword context,
            layer2_result := some (layer2fn keyword context job_context),
            layer3_result := none, decision_path := "Layer1 → Layer2" })
    ∧ (¬((layer1 keyword context).valid = false ∧ (layer1 keyword context).confidence = "HIGH") →
        (layer2fn keyword context job_context).risk_level ≠ "FABRICATION" →
        strict_mode = true → (layer3fn keyword context).valid = false →
        (layer3fn keyword context).confidence = "HIGH" →
      validate_keyword layer1 (some layer2fn) layer3fn keyword context job_context strict_mode
        = { valid := false, overall_confidence := "MEDIUM",
            layer1_result := layer1 keyword context,
            layer2_result := some (layer2fn keyword context job_context),
            layer3_result := some (layer3fn keyword context),
            decision_path := "Layer1 → Layer2 → Layer3" }) := by
  refine ⟨fun h1 => ?_, fun h1 h2 => ?_, fun h1 h2 hs h3v h3c => ?_⟩
  · simp [validate_keyword, h1]
  · simp [validate_keyword, h1, h2]
  · simp [validate_keyword, mlvFinish, h1, h2, hs, h3v, h3c]

theorem skipWs_ge (cs : List Char) (i : Nat) : i ≤ skipWs cs i := by
  unfold skipWs
  omega

theorem matchItemTail_gt (cs : List Char) (q e : Nat) (h : matchItemTail cs q = some e) :
    q < e := by
  unfold matchItemTail at h
  split at h
  · dsimp only at h
    split at h
    · simp only [Option.some.injEq] at h
      have := skipWs_ge cs (q + 4)
      omega
    · exact absurd h (by simp)
  · exact absurd h (by simp)

theorem matchItemPre_gt (cs : List Char) (p : Nat) (pre : List Char) (e : Nat)
    (h : matchItemPre cs p pre = some e) : p < e := by
  unfold matchItemPre at h
  split at h
  · have := matchItemTail_gt cs _ e h
    omega
  · exact absurd h (by simp)

theorem matchItemCmd_gt (cs : List Char) (p e : Nat) (h : matchItemCmd cs p = some e) :
    p < e := by
  unfold matchItemCmd at h
  split at h
  · split at h
    · rename_i he
      cases h
      exact matchItemPre_gt cs p _ e he
    · split at h
      · rename_i he
        cases h
        exact matchItemPre_gt cs p _ e he
      · split at h
        · rename_i he
          cases h
          exact matchItemPre_gt cs p _ e he
        · exact matchItemPre_gt cs p _ e h
  · exact absurd h (by simp)

theorem searchItemFrom_facts (cs : List Char) :
    ∀ fuel pos q e, searchItemFrom cs pos fuel = some (q, e) →
      pos ≤ q ∧ matchItemCmd cs q = some e := by
  intro fuel
  induction fuel with
  | zero => intro pos q e h; exact absurd h (by simp [searchItemFrom])
  | succ fuel ih =>
    intro pos q e h
    unfold searchItemFrom at h
    split at h
    · exact absurd h (by simp)
    · split at h
      · rename_i e0 hcmd
        simp only [Option.some.injEq, Prod.mk.injEq] at h
        obtain ⟨rfl, rfl⟩ := h
        exact ⟨le_refl _, hcmd⟩
      · obtain ⟨h1, h2⟩ := ih (pos + 1) q e h
        exact ⟨by omega, h2⟩

theorem braceScan_ge (cs : List Char) :
    ∀ fuel i count, i ≤ (braceScan cs i count fuel).1 := by
  intro fuel
  induction fuel with
  | zero => intro i count; simp [braceScan]
  | succ fuel ih =>
    intro i count
    unfold braceScan
    split
    · exact Nat.le_trans (by omega) (ih (i + 1) _)
    · simp

theorem customItemsLoop_lb (cs : List Char) (s : String) :
    ∀ fuel pos x, x ∈ customItemsLoop cs s pos fuel → pos ≤ x.2.1 := by
  intro fuel
  induction fuel with
  | zero => intro pos x hx; exact absurd hx (by simp [customItemsLoop])
  | succ fuel ih =>
    intro pos x hx
    unfold customItemsLoop at hx
    split at hx
    · exact absurd hx (by simp)
    · rename_i q e hsearch
      obtain ⟨hq, hcmd⟩ := searchItemFrom_facts cs _ pos q e hsearch
      have hqe := matchItemCmd_gt cs q e hcmd
      dsimp only at hx
      split at hx
      · rcases List.mem_cons.mp hx with rfl | hx'
        · exact hq
        · have hscan := braceScan_ge cs (cs.length + 1) (e - 1 + 1) 1
          have := ih _ x hx'
          omega
      · have := ih _ x hx
        omega

theorem customItemsLoop_pairwise (cs : List Char) (s : String) :
    ∀ fuel pos, (customItemsLoop cs s pos fuel).Pairwise spanRel := by
  intro fuel
  induction fuel with
  | zero => intro pos; simp [customItemsLoop]
  | succ fuel ih =>
    intro pos
    unfold customItemsLoop
    split
    · simp
    · rename_i q e hsearch
      obtain ⟨hq, hcmd⟩ := searchItemFrom_facts cs _ pos q e hsearch
      have hqe := matchItemCmd_gt cs q e hcmd
      have hscan := braceScan_ge cs (cs.length + 1) (e - 1 + 1) 1
      dsimp only
      split
      · refine List.Pairwise.cons ?_ (ih _)
        intro x hx
        have hlb := customItemsLoop_lb cs s fuel _ x hx
        constructor
        · show (braceScan cs (e - 1 + 1) 1 (cs.length + 1)).1 ≤ x.2.1
          omega
        · show q < x.2.1
          omega
      · exact ih _

theorem searchStdFrom_facts (cs : List Char) :
    ∀ fuel pos p g1s e, searchStdFrom cs pos fuel = some (p, g1s, e) → pos ≤ p := by
  intro fuel
  induction fuel with
  | zero => intro pos p g1s e h; exact absurd h (by simp [searchStdFrom])
  | succ fuel ih =>
    intro pos p g1s e h
    unfold searchStdFrom at h
    split at h
    · exact absurd h (by simp)
    · split at h
      · simp only [Option.some.injEq, Prod.mk.injEq] at h
        omega
      · have := ih (pos + 1) p g1s e h
        omega

theorem stdItemsLoop_lb (cs : List Char) (s : String) :
    ∀ fuel pos x, x ∈ stdItemsLoop cs s pos fuel → pos ≤ x.2.1 := by
  intro fuel
  induction fuel with
  | zero => intro pos x hx; exact absurd hx (by simp [stdItemsLoop])
  | succ fuel ih =>
    intro pos x hx
    unfold stdItemsLoop at hx
    split at hx
    · exact absurd hx (by simp)
    · rename_i p g1s e hsearch
      have hp : pos ≤ p := searchStdFrom_facts cs _ pos p g1s e hsearch
      rcases List.mem_cons.mp hx with rfl | hx'
      · exact hp
      · have := ih _ x hx'
        have : max e (p + 1) ≤ x.2.1 := this
        omega

theorem stdItemsLoop_pairwise (cs : List Char) (s : String) :
    ∀ fuel pos, (stdItemsLoop cs s pos fuel).Pairwise spanRel := by
  intro fuel
  induction fuel with
  | zero => intro pos; simp [stdItemsLoop]
  | succ fuel ih =>
    intro pos
    unfold stdItemsLoop
    split
    · simp
    · rename_i p g1s e hsearch
      refine List.Pairwise.cons ?_ (ih _)
      intro x hx
      have hlb := stdItemsLoop_lb cs s fuel _ x hx
      have h1 : e ≤ max e (p + 1) := le_max_left _ _
      have h2 : p + 1 ≤ max e (p + 1) := le_max_right _ _
      constructor
      · show e ≤ x.2.1
        omega
      · show p < x.2.1
        omega

/-- C9: the spans returned by the site extractor are pairwise disjoint and
listed in strictly increasing start order — for the extractor as called, and
for each of its two grammars (the brace-delimited command grammar and the
fallback line-oriented grammar) separately. -/
theorem extract_items_disjoint_sorted (s : String) :
    (extract_items s).Pairwise spanRel
      ∧ (customItemsLoop s.data s 0 (s.data.length + 1)).Pairwise spanRel
      ∧ (stdItemsLoop s.data s 0 (s.data.length + 1)).Pairwise spanRel := by
  refine ⟨?_, customItemsLoop_pairwise s.data s _ 0, stdItemsLoop_pairwise s.data s _ 0⟩
  unfold extract_items
  dsimp only
  split
  · exact stdItemsLoop_pairwise s.data s _ 0
  · exact customItemsLoop_pairwise s.data s _ 0

/-- C1: on a document with zero extractable item spans and a candidate list
holding one term, `optimize_latex_resume` does not return the original
document with an empty ledger: the leftover duplicate block reads the local
`original_item`, which no loop iteration ever bound, and the call raises
`UnboundLocalError` — for every validator and every AI backend (neither is
reached). -/
theorem optimize_no_items_raises (validator : MLValidator) (ai : EnhanceOracle) :
    optimize_latex_resume validator ai "Hello world" ["Docker"] "" ""
      = Except.error "UnboundLocalError: local variable original_item referenced before assignment" :=
  rfl

/-- C6: a completed `optimize_latex_resume` call records TWO ledger entries
for the single bullet insertion of the one approved term `Docker` (the second
appended by the leftover duplicate block), and reports the term as added
twice — the claim's "at most one ledger entry per processed term" is violated
by the code. -/
theorem optimize_duplicate_bullet_entries :
    demoRun.map (fun r => (r.1, r.2.1, r.2.2.map (fun c => (c.keyword, c.section'))))
      = Except.ok ("\\resumeItem{w/ Docker}", ["Docker", "Docker"],
          [("Docker", "experience"), ("Docker", "experience")]) := rfl

theorem get_context_bonus_nonneg (keyword jd : String) : 0 ≤ get_context_bonus keyword jd := by
  unfold get_context_bonus
  split_ifs <;> decide

theorem calculate_priority_score_eq (keyword jd : String) :
    calculate_priority_score keyword jd
      = (count_frequency keyword jd : ℚ) * get_section_weight keyword jd
          * (1 + get_context_bonus keyword jd) := by
  unfold calculate_priority_score
  rw [ratMul_eq, ratMul_eq, ratAdd_eq, natToRat_eq, Rat.mkRat_eq_div]
  norm_num

theorem prioritize_scores (keywords : List String) (jd : String) :
    ∀ p ∈ prioritize_keywords keywords jd, p.2 = calculate_priority_score p.1 jd := by
  intro p hp
  unfold prioritize_keywords at hp
  have hmem := (List.perm_insertionSort (fun a b => b.2 ≤ a.2)
    (keywords.map (fun kw => (kw, calculate_priority_score kw jd)))).mem_iff.mp hp
  obtain ⟨k, -, rfl⟩ := List.mem_map.mp hmem
  rfl

theorem prioritize_sorted (keywords : List String) (jd : String) :
    List.Sorted (fun a b : String × ℚ => b.2 ≤ a.2) (prioritize_keywords keywords jd) := by
  haveI : IsTotal (String × ℚ) (fun a b => b.2 ≤ a.2) := ⟨fun a b => le_total b.2 a.2⟩
  haveI : IsTrans (String × ℚ) (fun a b => b.2 ≤ a.2) :=
    ⟨fun _ _ _ hab hbc => le_trans hbc hab⟩
  exact List.sorted_insertionSort _ _

/-- C8: for any job description and any two candidate terms with identical
(positive) section weight and identical context bonus, a term with
word-boundary frequency 5 is ranked strictly before a term with frequency 1. -/
theorem priority_monotonicity (keywords : List String) (jd : String) (X Y : String)
    (w b : ℚ)
    (hfX : count_frequency X jd = 5) (hfY : count_frequency Y jd = 1)
    (hwX : get_section_weight X jd = w) (hwY : get_section_weight Y jd = w) (hw : 0 < w)
    (hbX : get_context_bonus X jd = b) (hbY : get_context_bonus Y jd = b) :
    StrictlyBefore X Y (prioritize_keywords keywords jd) := by
  intro i j hXi hYj
  have hb0 : 0 ≤ b := hbX ▸ get_context_bonus_nonneg X jd
  have hsX : calculate_priority_score X jd = 5 * w * (1 + b) := by
    rw [calculate_priority_score_eq, hfX, hwX, hbX]
    norm_num
  have hsY : calculate_priority_score Y jd = w * (1 + b) := by
    rw [calculate_priority_score_eq, hfY, hwY, hbY]
    norm_num
  have hlt : calculate_priority_score Y jd < calculate_priority_score X jd := by
    rw [hsX, hsY]
    nlinarith
  have hXscore : ((prioritize_keywords keywords jd).get i).2 = calculate_priority_score X jd := by
    rw [prioritize_scores keywords jd _ (List.get_mem _ i.1 i.2), hXi]
  have hYscore : ((prioritize_keywords keywords jd).get j).2 = calculate_priority_score Y jd := by
    rw [prioritize_scores keywords jd _ (List.get_mem _ j.1 j.2), hYj]
  by_contra hij
  push_neg at hij
  rcases eq_or_lt_of_le hij with heq | hlt'
  · have hji : j = i := Fin.ext heq
    rw [← hji] at hXi
    have hXY : X = Y := by rw [← hXi, ← hYj]
    rw [hXY] at hfX
    omega
  · have hpair := List.pairwise_iff_get.mp (prioritize_sorted keywords jd) j i hlt'
    rw [hXscore, hYscore] at hpair
    exact absurd hpair (not_le.mpr hlt)

set_option maxRecDepth 40000 in
/-- Witness for C8 at a concrete input: over the job description
`"python python python python python java"` (one headerless section, weight
1.0 for both; context bonus 0.3 for both; frequencies 5 and 1), `"python"`
is ranked strictly before `"java"`. -/
theorem priority_monotonicity_witness :
    StrictlyBefore "python" "java"
      (prioritize_keywords ["java", "python"] "python python python python python java") :=
  priority_monotonicity ["java", "python"] "python python python python python java"
    "python" "java" 1 (mkRat 3 10)
    (by decide) (by decide) (by decide) (by decide) (by decide) (by decide) (by decide)

/-- C7 counterexample: for the term `"Kubernetes"`, a job description not
containing it and the title `"Kubernetes Engineer"`, the spec's contract
gives a context bonus of `0.2` (the title bonus), but the implemented
`_get_context_bonus` — which receives no title at all — gives `0`, and the
implemented ranking scores the term `0` regardless of any title. -/
theorem context_bonus_title_counterexample :
    get_context_bonus "Kubernetes" "python developer role" = 0
      ∧ context_bonus_specified "Kubernetes" "python developer role" "Kubernetes Engineer"
          = mkRat 1 5
      ∧ prioritize_keywords ["Kubernetes"] "python developer role" = [("Kubernetes", 0)] := by
  decide

/-- C7 amended: the implemented ranking takes no job title; the context bonus
is `+0.3` if the term occurs case-insensitively in the first 200 characters,
`+0.2` if its fully-uppercased form occurs at word boundaries, and `+0.2` if
it occurs wrapped in markup emphasis characters; the bonuses are additive and
the total is capped at 1.0 (in particular it lies in `[0, 1]`). -/
theorem context_bonus_characterization (keyword jd : String) :
    get_context_bonus keyword jd
      = min ((if appearsInIntro keyword jd then (3/10 : ℚ) else 0)
            + (if appearsCapitalized keyword jd then (2/10 : ℚ) else 0)
            + (if appearsEmphasized keyword jd then (2/10 : ℚ) else 0)) 1
      ∧ 0 ≤ get_context_bonus keyword jd ∧ get_context_bonus keyword jd ≤ 1 := by
  refine ⟨?_, get_context_bonus_nonneg keyword jd, ?_⟩
  · unfold get_context_bonus
    split_ifs <;> simp [ratAdd_eq, Rat.mkRat_eq_div]
  · unfold get_context_bonus
    exact min_le_right _ _

/-- C2: `apply_user_selections` is the left fold, over the ledger's changes in
creation order, in which a change whose id is in the requested set and whose
status is ACCEPTED performs one first-occurrence substitution of its
before-text by its after-text, and every other change leaves the working
document unchanged. -/
theorem apply_user_selections_eq_foldl (t : ChangeTracker) (ids : List String) (doc : String) :
    apply_user_selections t ids doc =
      t.changes.foldl
        (fun working c =>
          if c.id ∈ ids ∧ c.status = ChangeStatus.accepted
          then pyReplaceFirst working c.original_text c.modified_text
          else working)
        doc := by
  unfold apply_user_selections
  induction t.changes generalizing doc with
  | nil => rfl
  | cons c rest ih =>
    simp only [applyChangesLoop, List.foldl_cons]
    rw [ih]
    congr 1
    by_cases hmem : c.id ∈ ids <;> by_cases hst : c.status = ChangeStatus.accepted <;>
      simp [hmem, hst, List.elem_iff]

end ApplyTune
